import Mathlib

/-!
Verification of the cluster-lights per-frame update engine
(`src/wasm/cluster-lights.c`).

Modelling conventions (shallow embedding):
* C `float` values are modelled as exact rationals (`ℚ`).  The transcendental
  library functions `sinf`, `cosf` and `sqrtf` are abstracted as an arbitrary
  interpretation bundled in the structure `FMath`; theorems quantify over the
  interpretation, so they hold for any values those functions may return.
* `fmodf` and the C float→int casts are exact on rationals and are modelled
  concretely (`truncQ`, `fmodf`).
* Machine integers are `Nat` with explicit reductions modulo `2^32`
  (resp. `2^8`) where the C code relies on fixed-width wrap-around.
* Each C struct becomes a Lean structure with the same fields; the global
  state becomes an explicit structure that operations take and return.
* C functions that write through pointers become pure functions returning the
  updated structure; uninitialised fields keep the previous contents of the
  array slot, so initialisation routines take the previous slot value as an
  explicit argument.
-/

/-- Truncation of a rational toward zero, the semantics of C float→int casts
and the quotient used by `fmodf`. -/
def truncQ (q : ℚ) : ℤ := Int.tdiv q.num q.den

/-- C `fmodf`: `x - y * trunc (x / y)` (exact on rationals; result carries the
sign of `x`, as in C). For `y = 0` C returns NaN; here the convention
`x / 0 = 0` makes the result `x`, which no claim depends on. -/
def fmodf (x y : ℚ) : ℚ := x - y * (truncQ (x / y) : ℚ)

/-- C cast of a float to `uint32_t`, wrapping (the spec documents the wrap for
negative inputs as inherited behaviour). -/
def f2u32 (q : ℚ) : ℕ := ((truncQ q).emod 4294967296).toNat

/-- C cast of a float to `uint8_t`. -/
def f2u8 (q : ℚ) : ℕ := ((truncQ q).emod 256).toNat

/-- C cast of a float to `int` (used by the ping-pong cycle counter). -/
def f2i (q : ℚ) : ℤ := truncQ q

/-- The `M_PI` constant of the C file. -/
def M_PI : ℚ := 3.14159265358979323846

/-- Abstract interpretation of the float math library functions used by the
code.  All theorems are stated for an arbitrary interpretation. -/
structure FMath where
  sinf : ℚ → ℚ
  cosf : ℚ → ℚ
  sqrtf : ℚ → ℚ

-- ──────────────────────────────────────────────────────────────
--                       ANIMATION TYPES
-- ──────────────────────────────────────────────────────────────
def ANIM_NONE : ℕ := 0x00
def ANIM_CIRCULAR : ℕ := 0x01
def ANIM_LINEAR : ℕ := 0x02
def ANIM_WAVE : ℕ := 0x04
def ANIM_FLICKER : ℕ := 0x08
def ANIM_PULSE : ℕ := 0x10
def ANIM_ROTATE : ℕ := 0x20

def LINEAR_ONCE : ℕ := 0
def LINEAR_LOOP : ℕ := 1
def LINEAR_PINGPONG : ℕ := 2

def PULSE_INTENSITY : ℕ := 0x01
def PULSE_RADIUS : ℕ := 0x02

def ROTATE_CONTINUOUS : ℕ := 0
def ROTATE_SWING : ℕ := 1

def LOD_SKIP : ℕ := 0
def LOD_SIMPLE : ℕ := 1
def LOD_MEDIUM : ℕ := 2
def LOD_FULL : ℕ := 3

def LOD_SKIP_DISTANCE : ℚ := 30
def LOD_SIMPLE_DISTANCE : ℚ := 15
def LOD_MEDIUM_DISTANCE : ℚ := 7

def DIRTY_POSITION : ℕ := 1
def DIRTY_COLOR : ℕ := 2
def DIRTY_PARAMS : ℕ := 4
def DIRTY_ALL : ℕ := 7

-- ──────────────────────────────────────────────────────────────
--                       TYPES AND STRUCTURES
-- ──────────────────────────────────────────────────────────────
/-- `typedef struct { float x, y, z, w; } Vec4;` -/
structure Vec4 where
  x : ℚ
  y : ℚ
  z : ℚ
  w : ℚ
deriving DecidableEq

/-- The twelve cached view-matrix elements `e0..e14` that `update` reads from
`cameraMatrix->te` (column-major 4×4, bottom row unused). -/
structure ViewCache where
  e0 : ℚ
  e1 : ℚ
  e2 : ℚ
  e4 : ℚ
  e5 : ℚ
  e6 : ℚ
  e8 : ℚ
  e9 : ℚ
  e10 : ℚ
  e12 : ℚ
  e13 : ℚ
  e14 : ℚ
deriving DecidableEq

/-- Global frustum / LOD settings (`viewNear`, `viewFar`, `lodBias`). -/
structure Frustum where
  viewNear : ℚ
  viewFar : ℚ
  lodBias : ℚ
deriving DecidableEq

structure CircularParams where
  speed : ℚ
  radius : ℚ
deriving DecidableEq

structure LinearParams where
  targetPos : Vec4
  duration : ℚ
  delay : ℚ
  mode : ℕ
deriving DecidableEq

structure WaveParams where
  axis : Vec4
  speed : ℚ
  amplitude : ℚ
  phase : ℚ
deriving DecidableEq

structure FlickerParams where
  speed : ℚ
  intensity : ℚ
  seed : ℚ
deriving DecidableEq

structure PulseParams where
  speed : ℚ
  amount : ℚ
  target : ℕ
deriving DecidableEq

structure RotationParams where
  axis : Vec4
  speed : ℚ
  angle : ℚ
  mode : ℕ
deriving DecidableEq

structure AnimationParams where
  flags : ℕ
  circular : CircularParams
  linear : LinearParams
  wave : WaveParams
  flicker : FlickerParams
  pulse : PulseParams
  rotation : RotationParams
deriving DecidableEq

structure PointLight where
  baseWorldPos : Vec4
  animOffset : Vec4
  worldPos : Vec4
  color : Vec4
  viewPos : Vec4
  baseColor : Vec4
  anim : AnimationParams
  decay : ℚ
  morton : ℕ
  dirty : ℕ
  visible : Bool
  lodLevel : ℕ
  castsShadow : Bool
  shadowIntensity : ℚ
deriving DecidableEq

structure SpotLight where
  baseWorldPos : Vec4
  animOffset : Vec4
  worldPos : Vec4
  color : Vec4
  direction : Vec4
  viewPos : Vec4
  viewDir : Vec4
  baseDir : Vec4
  anim : AnimationParams
  decay : ℚ
  angle : ℚ
  penumbra : ℚ
  morton : ℕ
  dirty : ℕ
  visible : Bool
  lodLevel : ℕ
  castsShadow : Bool
  shadowIntensity : ℚ
deriving DecidableEq

structure RectLight where
  baseWorldPos : Vec4
  animOffset : Vec4
  worldPos : Vec4
  color : Vec4
  size : Vec4
  normal : Vec4
  tangent : Vec4
  bitangent : Vec4
  viewPos : Vec4
  viewNormal : Vec4
  viewTangent : Vec4
  baseNormal : Vec4
  baseTangent : Vec4
  baseBitangent : Vec4
  anim : AnimationParams
  decay : ℚ
  morton : ℕ
  dirty : ℕ
  visible : Bool
  lodLevel : ℕ
  castsShadow : Bool
  shadowIntensity : ℚ
deriving DecidableEq

/-- Output record for point lights (`PointLightDataOptimized`). -/
structure PointLightDataOptimized where
  positionRadius : Vec4
  colorDecayVisible : Vec4
deriving DecidableEq

/-- Output record for spot lights (`SpotLightData`). -/
structure SpotLightData where
  positionRadius : Vec4
  colorIntensity : Vec4
  direction : Vec4
  angleParams : Vec4
deriving DecidableEq

/-- Output record for rect lights (`RectLightData`). -/
structure RectLightData where
  positionRadius : Vec4
  colorIntensity : Vec4
  sizeParams : Vec4
  normal : Vec4
  tangent : Vec4
deriving DecidableEq

-- ──────────────────────────────────────────────────────────────
--                    FAST MATH & HELPERS
-- ──────────────────────────────────────────────────────────────
def clampf (v lo hi : ℚ) : ℚ := if v < lo then lo else (if v > hi then hi else v)

def lerpf (a b t : ℚ) : ℚ := a + (b - a) * t

/-- `interleaveBits`: each step is `uint32` arithmetic, hence the explicit
`% 2^32` after the shift. -/
def interleaveBits (x : ℕ) : ℕ :=
  let x := (x ||| ((x <<< 8) % 4294967296)) &&& 0x00FF00FF
  let x := (x ||| ((x <<< 4) % 4294967296)) &&& 0x0F0F0F0F
  let x := (x ||| ((x <<< 2) % 4294967296)) &&& 0x33333333
  let x := (x ||| ((x <<< 1) % 4294967296)) &&& 0x55555555
  x

def computeMorton (x z : ℚ) : ℕ :=
  let xi := f2u32 x
  let zi := f2u32 z
  (interleaveBits xi ||| ((interleaveBits zi <<< 1) % 4294967296)) % 4294967296

def worldToView (c : ViewCache) (x y z r : ℚ) : Vec4 :=
  { x := c.e0 * x + c.e4 * y + c.e8 * z + c.e12
    y := c.e1 * x + c.e5 * y + c.e9 * z + c.e13
    z := c.e2 * x + c.e6 * y + c.e10 * z + c.e14
    w := r }

def worldDirToView (fm : FMath) (c : ViewCache) (vin : Vec4) : Vec4 :=
  let ox := c.e0 * vin.x + c.e4 * vin.y + c.e8 * vin.z
  let oy := c.e1 * vin.x + c.e5 * vin.y + c.e9 * vin.z
  let oz := c.e2 * vin.x + c.e6 * vin.y + c.e10 * vin.z
  let len := fm.sqrtf (ox * ox + oy * oy + oz * oz)
  if len > 0 then
    let inv := 1 / len
    { x := ox * inv, y := oy * inv, z := oz * inv, w := vin.w }
  else
    { x := ox, y := oy, z := oz, w := vin.w }

/-- Rodrigues' rotation formula (`rotateAroundAxis`). -/
def rotateAroundAxis (fm : FMath) (v axis : Vec4) (angle : ℚ) : Vec4 :=
  let c := fm.cosf angle
  let s := fm.sinf angle
  let dot := v.x * axis.x + v.y * axis.y + v.z * axis.z
  { v with
    x := v.x * c + (axis.y * v.z - axis.z * v.y) * s + axis.x * dot * (1 - c)
    y := v.y * c + (axis.z * v.x - axis.x * v.z) * s + axis.y * dot * (1 - c)
    z := v.z * c + (axis.x * v.y - axis.y * v.x) * s + axis.z * dot * (1 - c) }

/-- `buildOrthonormalBasis`: returns `(tangent, bitangent)`. -/
def buildOrthonormalBasis (fm : FMath) (normal : Vec4) : Vec4 × Vec4 :=
  let reference : Vec4 :=
    if |normal.y| ≥ 0.999 then ⟨1, 0, 0, 0⟩ else ⟨0, 1, 0, 0⟩
  let tx := reference.y * normal.z - reference.z * normal.y
  let ty := reference.z * normal.x - reference.x * normal.z
  let tz := reference.x * normal.y - reference.y * normal.x
  let len := fm.sqrtf (tx * tx + ty * ty + tz * tz)
  -- fallback reference if the normal nearly matches the primary helper
  let st :=
    if len < 1e-6 then
      let reference : Vec4 := ⟨0, 0, 1, 0⟩
      let tx := reference.y * normal.z - reference.z * normal.y
      let ty := reference.z * normal.x - reference.x * normal.z
      let tz := reference.x * normal.y - reference.y * normal.x
      (tx, ty, tz, fm.sqrtf (tx * tx + ty * ty + tz * tz))
    else (tx, ty, tz, len)
  let tangent : Vec4 :=
    if st.2.2.2 > 0 then
      let inv := 1 / st.2.2.2
      ⟨st.1 * inv, st.2.1 * inv, st.2.2.1 * inv, 0⟩
    else ⟨1, 0, 0, 0⟩
  let bx := normal.y * tangent.z - normal.z * tangent.y
  let by_ := normal.z * tangent.x - normal.x * tangent.z
  let bz := normal.x * tangent.y - normal.y * tangent.x
  let bitLen := fm.sqrtf (bx * bx + by_ * by_ + bz * bz)
  let bitangent : Vec4 :=
    if bitLen > 0 then
      let invBit := 1 / bitLen
      ⟨bx * invBit, by_ * invBit, bz * invBit, 0⟩
    else ⟨bx, by_, bz, 0⟩
  (tangent, bitangent)

/-- Scalar `calculateLOD` (the global `lodBias` is passed explicitly). -/
def calculateLOD (lodBias viewZ radius : ℚ) : ℕ :=
  let distance := -viewZ
  let relativeDistance := distance / (radius * lodBias)
  if relativeDistance > LOD_SKIP_DISTANCE then LOD_SKIP
  else if relativeDistance > LOD_SIMPLE_DISTANCE then LOD_SIMPLE
  else if relativeDistance > LOD_MEDIUM_DISTANCE then LOD_MEDIUM
  else LOD_FULL

/-- One lane of `calculateLOD_SIMD`: the bit-select cascade starts from
`LOD_FULL` and overwrites with 2 / 1 / 0 as each `>` comparison fires; the
resulting float lane is cast to `uint8_t`. -/
def calculateLOD_SIMD_lane (lodBias viewZ radius : ℚ) : ℕ :=
  let relDist := (-viewZ) / (radius * lodBias)
  let lod : ℚ := 3
  let lod := if relDist > LOD_MEDIUM_DISTANCE then 2 else lod
  let lod := if relDist > LOD_SIMPLE_DISTANCE then 1 else lod
  let lod := if relDist > LOD_SKIP_DISTANCE then 0 else lod
  f2u8 lod

def packLightParams (decay : ℚ) (visible : Bool) (lod : ℕ) : ℚ :=
  decay * 100 + (if visible then 10 else 0) + (lod : ℚ)

def packVisibleLOD (visible : Bool) (lod : ℕ) : ℚ :=
  ((if visible then 10 else 0 : ℕ) : ℚ) + (lod : ℚ)

-- ──────────────────────────────────────────────────────────────
--                   ANIMATION PROCESSING
-- ──────────────────────────────────────────────────────────────
/-- Shared linear-motion interpolation parameter: remaps
`t = (time - delay) / duration` according to the linear mode
(`LINEAR_LOOP` wraps, `LINEAR_PINGPONG` reflects on odd cycles — `cycle & 1`
on the C int is odd-ness of the truncated value — `LINEAR_ONCE` clamps). -/
def linearT (mode : ℕ) (t : ℚ) : ℚ :=
  if mode = LINEAR_LOOP then fmodf t 1
  else if mode = LINEAR_PINGPONG then
    let cycle := f2i t
    let t := fmodf t 1
    if cycle.emod 2 = 1 then 1 - t else t
  else clampf t 0 1

/-- Two-term flicker factor `1 + sin(t·s + seed) · cos(t·s·1.7 + seed·2.3) · i`. -/
def flickerFactor (fm : FMath) (p : FlickerParams) (time : ℚ) : ℚ :=
  1 + fm.sinf (time * p.speed + p.seed) *
      fm.cosf (time * p.speed * 1.7 + p.seed * 2.3) * p.intensity

/-- Pulse factor `1 + sin(t·speed) · amount`. -/
def pulseFactor (fm : FMath) (p : PulseParams) (time : ℚ) : ℚ :=
  1 + fm.sinf (time * p.speed) * p.amount

def processPointLightAnimation (fm : FMath) (l : PointLight) (time : ℚ) : PointLight :=
  -- Reset offset; start from base values
  let l := { l with animOffset := ⟨0, 0, 0, 0⟩, color := l.baseColor,
                    worldPos.w := l.baseWorldPos.w }
  if l.anim.flags = ANIM_NONE then { l with worldPos := l.baseWorldPos } else
  -- Circular motion - as offset only
  let l := if l.anim.flags &&& ANIM_CIRCULAR ≠ 0 then
      let phase := time * l.anim.circular.speed
      { l with animOffset.x := fm.sinf phase * l.anim.circular.radius,
               animOffset.z := fm.cosf phase * l.anim.circular.radius }
    else l
  -- Linear motion - as offset (assignments, overwriting circular x/z)
  let l := if l.anim.flags &&& ANIM_LINEAR ≠ 0 then
      if time ≥ l.anim.linear.delay then
        let t := linearT l.anim.linear.mode
          ((time - l.anim.linear.delay) / l.anim.linear.duration)
        { l with animOffset.x := lerpf 0 (l.anim.linear.targetPos.x - l.baseWorldPos.x) t,
                 animOffset.y := lerpf 0 (l.anim.linear.targetPos.y - l.baseWorldPos.y) t,
                 animOffset.z := lerpf 0 (l.anim.linear.targetPos.z - l.baseWorldPos.z) t }
      else l
    else l
  -- Wave motion - added to the running offset
  let l := if l.anim.flags &&& ANIM_WAVE ≠ 0 then
      let wave := fm.sinf (time * l.anim.wave.speed + l.anim.wave.phase) * l.anim.wave.amplitude
      { l with animOffset.x := l.animOffset.x + l.anim.wave.axis.x * wave,
               animOffset.y := l.animOffset.y + l.anim.wave.axis.y * wave,
               animOffset.z := l.animOffset.z + l.anim.wave.axis.z * wave }
    else l
  -- Apply offset to get final world position
  let l := { l with worldPos.x := l.baseWorldPos.x + l.animOffset.x,
                    worldPos.y := l.baseWorldPos.y + l.animOffset.y,
                    worldPos.z := l.baseWorldPos.z + l.animOffset.z }
  -- Property animations (point lights scale from baseColor)
  let l := if l.anim.flags &&& ANIM_FLICKER ≠ 0 then
      { l with color.w := l.baseColor.w * clampf (flickerFactor fm l.anim.flicker time) 0.1 2 }
    else l
  let l := if l.anim.flags &&& ANIM_PULSE ≠ 0 then
      let pulse := pulseFactor fm l.anim.pulse time
      let l := if l.anim.pulse.target &&& PULSE_INTENSITY ≠ 0 then
          { l with color.w := l.baseColor.w * pulse } else l
      if l.anim.pulse.target &&& PULSE_RADIUS ≠ 0 then
          { l with worldPos.w := l.baseWorldPos.w * pulse } else l
    else l
  l

/-- Rotation angle shared by the spot/rect processors. -/
def rotationAngle (fm : FMath) (p : RotationParams) (time : ℚ) : ℚ :=
  if p.mode = ROTATE_SWING then fm.sinf (time * p.speed) * p.angle
  else fmodf (time * p.speed) (2 * M_PI)

def processSpotLightAnimation (fm : FMath) (l : SpotLight) (time : ℚ) : SpotLight :=
  -- Reset offset; start from base values
  let l := { l with animOffset := ⟨0, 0, 0, 0⟩, direction := l.baseDir,
                    worldPos.w := l.baseWorldPos.w }
  if l.anim.flags = ANIM_NONE then { l with worldPos := l.baseWorldPos } else
  -- Linear motion - as offset
  let l := if l.anim.flags &&& ANIM_LINEAR ≠ 0 then
      if time ≥ l.anim.linear.delay then
        let t := linearT l.anim.linear.mode
          ((time - l.anim.linear.delay) / l.anim.linear.duration)
        { l with animOffset.x := lerpf 0 (l.anim.linear.targetPos.x - l.baseWorldPos.x) t,
                 animOffset.y := lerpf 0 (l.anim.linear.targetPos.y - l.baseWorldPos.y) t,
                 animOffset.z := lerpf 0 (l.anim.linear.targetPos.z - l.baseWorldPos.z) t }
      else l
    else l
  -- Apply offset to get final world position
  let l := { l with worldPos.x := l.baseWorldPos.x + l.animOffset.x,
                    worldPos.y := l.baseWorldPos.y + l.animOffset.y,
                    worldPos.z := l.baseWorldPos.z + l.animOffset.z }
  -- Rotation for direction AND position
  let l := if l.anim.flags &&& ANIM_ROTATE ≠ 0 then
      let angle := rotationAngle fm l.anim.rotation time
      { l with direction := rotateAroundAxis fm l.baseDir l.anim.rotation.axis angle,
               worldPos := rotateAroundAxis fm l.worldPos l.anim.rotation.axis angle }
    else l
  -- Flickering: chained onto the current color (not baseColor)
  let l := if l.anim.flags &&& ANIM_FLICKER ≠ 0 then
      { l with color.w := l.color.w * clampf (flickerFactor fm l.anim.flicker time) 0.1 2 }
    else l
  -- Pulsing: intensity chained onto the current color
  let l := if l.anim.flags &&& ANIM_PULSE ≠ 0 then
      let pulse := pulseFactor fm l.anim.pulse time
      let l := if l.anim.pulse.target &&& PULSE_INTENSITY ≠ 0 then
          { l with color.w := l.color.w * pulse } else l
      if l.anim.pulse.target &&& PULSE_RADIUS ≠ 0 then
          { l with worldPos.w := l.baseWorldPos.w * pulse } else l
    else l
  l

def processRectLightAnimation (fm : FMath) (l : RectLight) (time : ℚ) : RectLight :=
  -- Reset offset; start from base values
  let l := { l with animOffset := ⟨0, 0, 0, 0⟩, normal := l.baseNormal,
                    worldPos.w := l.baseWorldPos.w }
  if l.anim.flags = ANIM_NONE then { l with worldPos := l.baseWorldPos } else
  -- Linear motion - as offset
  let l := if l.anim.flags &&& ANIM_LINEAR ≠ 0 then
      if time ≥ l.anim.linear.delay then
        let t := linearT l.anim.linear.mode
          ((time - l.anim.linear.delay) / l.anim.linear.duration)
        { l with animOffset.x := lerpf 0 (l.anim.linear.targetPos.x - l.baseWorldPos.x) t,
                 animOffset.y := lerpf 0 (l.anim.linear.targetPos.y - l.baseWorldPos.y) t,
                 animOffset.z := lerpf 0 (l.anim.linear.targetPos.z - l.baseWorldPos.z) t }
      else l
    else l
  -- Apply offset to get final world position
  let l := { l with worldPos.x := l.baseWorldPos.x + l.animOffset.x,
                    worldPos.y := l.baseWorldPos.y + l.animOffset.y,
                    worldPos.z := l.baseWorldPos.z + l.animOffset.z }
  -- Rotation for normal, tangent, and bitangent
  let l := if l.anim.flags &&& ANIM_ROTATE ≠ 0 then
      let angle := rotationAngle fm l.anim.rotation time
      { l with normal := rotateAroundAxis fm l.baseNormal l.anim.rotation.axis angle,
               tangent := rotateAroundAxis fm l.baseTangent l.anim.rotation.axis angle,
               bitangent := rotateAroundAxis fm l.baseBitangent l.anim.rotation.axis angle }
    else l
  -- Flickering: chained onto the current color
  let l := if l.anim.flags &&& ANIM_FLICKER ≠ 0 then
      { l with color.w := l.color.w * clampf (flickerFactor fm l.anim.flicker time) 0.1 2 }
    else l
  -- Pulsing: intensity only, chained onto the current color
  let l := if l.anim.flags &&& ANIM_PULSE ≠ 0 then
      let pulse := pulseFactor fm l.anim.pulse time
      if l.anim.pulse.target &&& PULSE_INTENSITY ≠ 0 then
          { l with color.w := l.color.w * pulse } else l
    else l
  l

-- ──────────────────────────────────────────────────────────────
--              FRAME UPDATE (SCALAR AND SIMD PATHS)
-- ──────────────────────────────────────────────────────────────
/-- Frustum culling predicate used verbatim for all three light kinds:
`viewZ > radius - near || viewZ < -far - radius`. -/
def culledPredicate (fr : Frustum) (viewZ radius : ℚ) : Bool :=
  decide (viewZ > radius - fr.viewNear ∨ viewZ < -fr.viewFar - radius)

/-- One iteration of the scalar point-light loop of `update`
(also the remainder loop of `updatePointLightsSIMD`): animate, transform,
LOD, cull, pack, clear dirty. Returns the updated stored light and the
output-buffer record written at its index. -/
def updatePointLightOne (fm : FMath) (c : ViewCache) (fr : Frustum) (time : ℚ)
    (l : PointLight) : PointLight × PointLightDataOptimized :=
  let l := if l.anim.flags ≠ ANIM_NONE then processPointLightAnimation fm l time
           else { l with worldPos := l.baseWorldPos }
  let l := { l with viewPos := worldToView c l.worldPos.x l.worldPos.y l.worldPos.z l.worldPos.w }
  let l := { l with lodLevel := calculateLOD fr.lodBias l.viewPos.z l.worldPos.w }
  let culled := culledPredicate fr l.viewPos.z l.worldPos.w
  let ld : PointLightDataOptimized :=
    { positionRadius := l.viewPos
      colorDecayVisible :=
        ⟨l.color.x * l.color.w, l.color.y * l.color.w, l.color.z * l.color.w,
         packLightParams l.decay (l.visible && !culled) l.lodLevel⟩ }
  ({ l with dirty := 0 }, ld)

/-- One iteration of the scalar spot-light loop of `update`. -/
def updateSpotLightOne (fm : FMath) (c : ViewCache) (fr : Frustum) (time : ℚ)
    (l : SpotLight) : SpotLight × SpotLightData :=
  let l := if l.anim.flags ≠ ANIM_NONE then processSpotLightAnimation fm l time
           else { l with worldPos := l.baseWorldPos }
  let l := { l with viewPos := worldToView c l.worldPos.x l.worldPos.y l.worldPos.z l.worldPos.w }
  let l := { l with viewDir := worldDirToView fm c l.direction }
  let l := { l with lodLevel := calculateLOD fr.lodBias l.viewPos.z l.worldPos.w }
  let culled := culledPredicate fr l.viewPos.z l.worldPos.w
  let ld : SpotLightData :=
    { positionRadius := l.viewPos
      colorIntensity := l.color
      direction := l.viewDir
      angleParams :=
        ⟨fm.cosf l.angle, fm.cosf (l.angle - l.penumbra), l.decay,
         packVisibleLOD (l.visible && !culled) l.lodLevel⟩ }
  ({ l with dirty := 0 }, ld)

/-- One iteration of the scalar rect-light loop of `update`. -/
def updateRectLightOne (fm : FMath) (c : ViewCache) (fr : Frustum) (time : ℚ)
    (l : RectLight) : RectLight × RectLightData :=
  let l := if l.anim.flags ≠ ANIM_NONE then processRectLightAnimation fm l time
           else { l with worldPos := l.baseWorldPos }
  let l := { l with viewPos := worldToView c l.worldPos.x l.worldPos.y l.worldPos.z l.worldPos.w }
  let l := { l with viewNormal := worldDirToView fm c l.normal }
  let l := { l with viewTangent := worldDirToView fm c l.tangent }
  let l := { l with lodLevel := calculateLOD fr.lodBias l.viewPos.z l.worldPos.w }
  let culled := culledPredicate fr l.viewPos.z l.worldPos.w
  let ld : RectLightData :=
    { positionRadius := l.viewPos
      colorIntensity := l.color
      sizeParams :=
        ⟨l.size.x, l.size.y, l.decay, packVisibleLOD (l.visible && !culled) l.lodLevel⟩
      normal := l.viewNormal
      tangent := l.viewTangent }
  ({ l with dirty := 0 }, ld)

/-- The scalar point-light pass over the whole array (the `#else` branch of
`update` and the general path, one light at a time). -/
def updatePointLightsScalar (fm : FMath) (c : ViewCache) (fr : Frustum) (time : ℚ)
    (ls : List PointLight) : List (PointLight × PointLightDataOptimized) :=
  ls.map (updatePointLightOne fm c fr time)

def updateSpotLights (fm : FMath) (c : ViewCache) (fr : Frustum) (time : ℚ)
    (ls : List SpotLight) : List (SpotLight × SpotLightData) :=
  ls.map (updateSpotLightOne fm c fr time)

def updateRectLights (fm : FMath) (c : ViewCache) (fr : Frustum) (time : ℚ)
    (ls : List RectLight) : List (RectLight × RectLightData) :=
  ls.map (updateRectLightOne fm c fr time)

/-- Per-lane finish of the 4-wide batch of `updatePointLightsSIMD`: the view
transform uses the SIMD association `(e·x + e·y) + (e·z + e)` of the vector
adds, the LOD uses the bit-select cascade, then cull/pack/clear, all
lane-wise. -/
def simdFinishOne (fr : Frustum) (c : ViewCache) (m : PointLight) :
    PointLight × PointLightDataOptimized :=
  let m := { m with viewPos :=
    ⟨(c.e0 * m.worldPos.x + c.e4 * m.worldPos.y) + (c.e8 * m.worldPos.z + c.e12),
     (c.e1 * m.worldPos.x + c.e5 * m.worldPos.y) + (c.e9 * m.worldPos.z + c.e13),
     (c.e2 * m.worldPos.x + c.e6 * m.worldPos.y) + (c.e10 * m.worldPos.z + c.e14),
     m.worldPos.w⟩ }
  let m := { m with lodLevel := calculateLOD_SIMD_lane fr.lodBias m.viewPos.z m.worldPos.w }
  let culled := culledPredicate fr m.viewPos.z m.worldPos.w
  let ld : PointLightDataOptimized :=
    { positionRadius := m.viewPos
      colorDecayVisible :=
        ⟨m.color.x * m.color.w, m.color.y * m.color.w, m.color.z * m.color.w,
         packLightParams m.decay (m.visible && !culled) m.lodLevel⟩ }
  ({ m with dirty := 0 }, ld)

/-- One 4-wide group of `updatePointLightsSIMD`: if any of the four lights is
animated, all four run the full animation processor; otherwise all four only
copy `baseWorldPos` to `worldPos`. -/
def updatePointLightsSIMD_group4 (fm : FMath) (c : ViewCache) (fr : Frustum) (time : ℚ)
    (l0 l1 l2 l3 : PointLight) : List (PointLight × PointLightDataOptimized) :=
  let step := fun (l : PointLight) =>
    if (l0.anim.flags ||| l1.anim.flags ||| l2.anim.flags ||| l3.anim.flags) ≠ ANIM_NONE then
      processPointLightAnimation fm l time
    else
      { l with worldPos := l.baseWorldPos }
  [simdFinishOne fr c (step l0), simdFinishOne fr c (step l1),
   simdFinishOne fr c (step l2), simdFinishOne fr c (step l3)]

/-- `updatePointLightsSIMD`: groups of four while at least four lights remain,
then the scalar remainder loop (whose body coincides with the scalar path of
`update`). -/
def updatePointLightsSIMD (fm : FMath) (c : ViewCache) (fr : Frustum) (time : ℚ) :
    List PointLight → List (PointLight × PointLightDataOptimized)
  | l0 :: l1 :: l2 :: l3 :: rest =>
      updatePointLightsSIMD_group4 fm c fr time l0 l1 l2 l3 ++
      updatePointLightsSIMD fm c fr time rest
  | ls => ls.map (updatePointLightOne fm c fr time)

-- ──────────────────────────────────────────────────────────────
--                     GENERIC RADIX SORT
-- ──────────────────────────────────────────────────────────────
-- The C macro `RADIX_SORT_IMPL(TYPE, src, dst, count)` is generic over the
-- struct type, accessing only the `morton` field; here the field access is
-- the parameter `mort`.

/-- The byte examined by the pass with shift `shift`:
`(src[i].morton >> shift) & 0xFFu`. -/
def radixDigit {R : Type} (mort : R → ℕ) (shift : ℕ) (r : R) : ℕ :=
  (mort r >>> shift) &&& 0xFF

/-- First loop of a pass: the histogram
(`for i: hist[(src[i].morton >> shift) & 0xFF]++` starting from `memset 0`). -/
def radixHist {R : Type} (mort : R → ℕ) (shift : ℕ) (src : List R) : ℕ → ℕ :=
  src.foldl
    (fun h r => Function.update h (radixDigit mort shift r) (h (radixDigit mort shift r) + 1))
    (fun _ => 0)

/-- Second loop of a pass: in-place exclusive prefix sums
(`int c = hist[i]; hist[i] = sum; sum += c;` over the 256 buckets). -/
def radixOffsets (h : ℕ → ℕ) : ℕ → ℕ :=
  ((List.range 256).foldl
    (fun (st : ℕ × (ℕ → ℕ)) i => (st.1 + st.2 i, Function.update st.2 i st.1))
    ((0 : ℕ), h)).2

/-- Third loop of a pass: the scatter `dst[hist[b]++] = src[i]`.  The
destination buffer is a map from positions to contents (`none` = not yet
written); the state is the pair (running offsets, buffer). -/
def radixScatter {R : Type} (mort : R → ℕ) (shift : ℕ) :
    List R → (ℕ → ℕ) → (ℕ → Option R) → (ℕ → ℕ) × (ℕ → Option R)
  | [], h, mem => (h, mem)
  | r :: rest, h, mem =>
      let b := radixDigit mort shift r
      radixScatter mort shift rest (Function.update h b (h b + 1))
        (Function.update mem (h b) (some r))

/-- One full counting pass: histogram, prefix sums, scatter, and the
destination buffer read back as the next array contents. -/
def radixPass {R : Type} (mort : R → ℕ) (shift : ℕ) (src : List R) : List R :=
  let mem := (radixScatter mort shift src (radixOffsets (radixHist mort shift src))
                (fun _ => none)).2
  (List.range src.length).filterMap mem

/-- `RADIX_SORT_IMPL`: four passes over the 8-bit digits, least significant
first.  After the even number of ping-pong swaps the data is back in the
primary array, so no final copy is needed. -/
def RADIX_SORT_IMPL {R : Type} (mort : R → ℕ) (src : List R) : List R :=
  radixPass mort 24 (radixPass mort 16 (radixPass mort 8 (radixPass mort 0 src)))

/-- The order the sort establishes (characterisation target, to be proven):
each pass lists bucket 0 first, then bucket 1, …; elements inside a bucket
keep their relative order. -/
def radixBuckets {R : Type} (mort : R → ℕ) (shift : ℕ) (src : List R) : List R :=
  (List.range 256).flatMap (fun b => src.filter (fun r => radixDigit mort shift r = b))

-- ──────────────────────────────────────────────────────────────
--                        GLOBAL STATE
-- ──────────────────────────────────────────────────────────────
/-- The mutable globals of the C file that the modelled operations touch.
The live counts (`pointLightCount`, …) are the lengths of the lists. -/
structure ClusterState where
  pointLights : List PointLight
  spotLights : List SpotLight
  rectLights : List RectLight
  maxLights : ℕ
  needsSort : Bool
  hasAnimatedLights : Bool
  hasPointLights : Bool
  hasSpotLights : Bool
  hasRectLights : Bool

/-- `sort()`: radix-sorts each kind (arrays of length ≤ 1 are skipped) only
when the ordering-stale flag is set, then clears the flag. -/
def sortOp (s : ClusterState) : ClusterState :=
  if s.needsSort then
    { s with
      pointLights :=
        if s.pointLights.length > 1 then RADIX_SORT_IMPL PointLight.morton s.pointLights
        else s.pointLights
      spotLights :=
        if s.spotLights.length > 1 then RADIX_SORT_IMPL SpotLight.morton s.spotLights
        else s.spotLights
      rectLights :=
        if s.rectLights.length > 1 then RADIX_SORT_IMPL RectLight.morton s.rectLights
        else s.rectLights
      needsSort := false }
  else s

-- ──────────────────────────────────────────────────────────────
--                   LIGHT CREATION (PER-SLOT INIT)
-- ──────────────────────────────────────────────────────────────
-- Each `add*` entry point writes into the array cell at the current count.
-- Fields the C code does not assign keep the stale memory of that cell, so
-- every init function takes the previous cell contents (`slot`).

/-- Body of `add` (after the capacity check): plain point light, optional
circular animation when `speed != 0`. -/
def addInit (slot : PointLight) (px py pz radius r g b decay speed animRadius intensity : ℚ) :
    PointLight :=
  let l := { slot with
    baseWorldPos := ⟨px, py, pz, radius⟩
    animOffset := ⟨0, 0, 0, 0⟩
    worldPos := ⟨px, py, pz, radius⟩
    baseColor := ⟨r, g, b, intensity⟩
    color := ⟨r, g, b, intensity⟩
    decay := decay
    morton := computeMorton px pz
    dirty := DIRTY_ALL
    visible := true
    lodLevel := LOD_FULL
    castsShadow := false
    shadowIntensity := 0.3
    anim.flags := ANIM_NONE }
  if speed ≠ 0 then
    { l with anim.flags := l.anim.flags ||| ANIM_CIRCULAR,
             anim.circular := ⟨speed, animRadius⟩ }
  else l

/-- Body of `addFast` (fixed decay 1, no dirty/animOffset writes). -/
def addFastInit (slot : PointLight) (px py pz radius r g b intensity : ℚ) : PointLight :=
  { slot with
    baseWorldPos := ⟨px, py, pz, radius⟩
    worldPos := ⟨px, py, pz, radius⟩
    baseColor := ⟨r, g, b, intensity⟩
    color := ⟨r, g, b, intensity⟩
    decay := 1
    morton := computeMorton px pz
    visible := true
    lodLevel := LOD_FULL
    castsShadow := false
    shadowIntensity := 0.3
    anim.flags := ANIM_NONE }

/-- Body of `addPointWithAnimation` (note: unlike `add`, the shadow fields are
not initialised). -/
def addPointWithAnimationInit (fm : FMath) (slot : PointLight)
    (px py pz radius r g b intensity decay : ℚ) (animFlags : ℕ)
    (circSpeed circRadius : ℚ)
    (targetX targetY targetZ duration delay : ℚ) (linearMode : ℕ)
    (waveAxisX waveAxisY waveAxisZ waveSpeed waveAmplitude wavePhase : ℚ)
    (flickerSpeed flickerIntensity flickerSeed : ℚ)
    (pulseSpeed pulseAmount : ℚ) (pulseTarget : ℕ) : PointLight :=
  let l := { slot with
    baseWorldPos := ⟨px, py, pz, radius⟩
    animOffset := ⟨0, 0, 0, 0⟩
    worldPos := ⟨px, py, pz, radius⟩
    baseColor := ⟨r, g, b, intensity⟩
    color := ⟨r, g, b, intensity⟩
    decay := decay
    morton := computeMorton px pz
    dirty := DIRTY_ALL
    visible := true
    lodLevel := LOD_FULL
    anim.flags := animFlags }
  let l := if animFlags &&& ANIM_CIRCULAR ≠ 0 then
      { l with anim.circular := ⟨circSpeed, circRadius⟩ } else l
  let l := if animFlags &&& ANIM_LINEAR ≠ 0 then
      { l with anim.linear := ⟨⟨targetX, targetY, targetZ, 0⟩, duration, delay, linearMode⟩ }
    else l
  let l := if animFlags &&& ANIM_WAVE ≠ 0 then
      let axis : Vec4 := ⟨waveAxisX, waveAxisY, waveAxisZ, 0⟩
      let len := fm.sqrtf (waveAxisX * waveAxisX + waveAxisY * waveAxisY + waveAxisZ * waveAxisZ)
      let axis := if len > 0 then ⟨axis.x / len, axis.y / len, axis.z / len, axis.w⟩ else axis
      { l with anim.wave := ⟨axis, waveSpeed, waveAmplitude, wavePhase⟩ }
    else l
  let l := if animFlags &&& ANIM_FLICKER ≠ 0 then
      { l with anim.flicker := ⟨flickerSpeed, flickerIntensity, flickerSeed⟩ } else l
  let l := if animFlags &&& ANIM_PULSE ≠ 0 then
      { l with anim.pulse := ⟨pulseSpeed, pulseAmount, pulseTarget⟩ } else l
  l

/-- Body of `addSpot`: the direction is normalised
(`inv = len > 0 ? 1/len : 0`). -/
def addSpotInit (fm : FMath) (slot : SpotLight)
    (px py pz radius r g b dx dy dz angle penumbra decay intensity : ℚ) : SpotLight :=
  let len := fm.sqrtf (dx * dx + dy * dy + dz * dz)
  let inv := if len > 0 then 1 / len else 0
  { slot with
    baseWorldPos := ⟨px, py, pz, radius⟩
    animOffset := ⟨0, 0, 0, 0⟩
    worldPos := ⟨px, py, pz, radius⟩
    color := ⟨r, g, b, intensity⟩
    direction := ⟨dx * inv, dy * inv, dz * inv, 0⟩
    baseDir := ⟨dx * inv, dy * inv, dz * inv, 0⟩
    decay := decay
    angle := angle
    penumbra := penumbra
    morton := computeMorton px pz
    dirty := DIRTY_ALL
    visible := true
    lodLevel := LOD_FULL
    castsShadow := false
    shadowIntensity := 0.3
    anim.flags := ANIM_NONE }

/-- Body of `addSpotWithAnimation` (direction normalised; shadow fields not
initialised). -/
def addSpotWithAnimationInit (fm : FMath) (slot : SpotLight)
    (px py pz radius r g b dx dy dz angle penumbra decay intensity : ℚ) (animFlags : ℕ)
    (targetX targetY targetZ duration delay : ℚ) (linearMode : ℕ)
    (rotAxisX rotAxisY rotAxisZ rotSpeed rotAngle : ℚ) (rotMode : ℕ)
    (flickerSpeed flickerIntensity flickerSeed : ℚ)
    (pulseSpeed pulseAmount : ℚ) (pulseTarget : ℕ) : SpotLight :=
  let len := fm.sqrtf (dx * dx + dy * dy + dz * dz)
  let inv := if len > 0 then 1 / len else 0
  let l := { slot with
    baseWorldPos := ⟨px, py, pz, radius⟩
    animOffset := ⟨0, 0, 0, 0⟩
    worldPos := ⟨px, py, pz, radius⟩
    color := ⟨r, g, b, intensity⟩
    direction := ⟨dx * inv, dy * inv, dz * inv, 0⟩
    baseDir := ⟨dx * inv, dy * inv, dz * inv, 0⟩
    decay := decay
    angle := angle
    penumbra := penumbra
    morton := computeMorton px pz
    dirty := DIRTY_ALL
    visible := true
    lodLevel := LOD_FULL
    anim.flags := animFlags }
  let l := if animFlags &&& ANIM_LINEAR ≠ 0 then
      { l with anim.linear := ⟨⟨targetX, targetY, targetZ, 0⟩, duration, delay, linearMode⟩ }
    else l
  let l := if animFlags &&& ANIM_ROTATE ≠ 0 then
      let axis : Vec4 := ⟨rotAxisX, rotAxisY, rotAxisZ, 0⟩
      let len := fm.sqrtf (rotAxisX * rotAxisX + rotAxisY * rotAxisY + rotAxisZ * rotAxisZ)
      let axis := if len > 0 then ⟨axis.x / len, axis.y / len, axis.z / len, axis.w⟩ else axis
      { l with anim.rotation := ⟨axis, rotSpeed, rotAngle, rotMode⟩ }
    else l
  let l := if animFlags &&& ANIM_FLICKER ≠ 0 then
      { l with anim.flicker := ⟨flickerSpeed, flickerIntensity, flickerSeed⟩ } else l
  let l := if animFlags &&& ANIM_PULSE ≠ 0 then
      { l with anim.pulse := ⟨pulseSpeed, pulseAmount, pulseTarget⟩ } else l
  l

/-- Body of `addRect`: normal normalised, orthonormal basis built. -/
def addRectInit (fm : FMath) (slot : RectLight)
    (px py pz width height nx ny nz r g b intensity decay radius : ℚ) : RectLight :=
  let len := fm.sqrtf (nx * nx + ny * ny + nz * nz)
  let inv := if len > 0 then 1 / len else 0
  let normal : Vec4 := ⟨nx * inv, ny * inv, nz * inv, 0⟩
  let tb := buildOrthonormalBasis fm normal
  { slot with
    baseWorldPos := ⟨px, py, pz, radius⟩
    animOffset := ⟨0, 0, 0, 0⟩
    worldPos := ⟨px, py, pz, radius⟩
    color := ⟨r, g, b, intensity⟩
    size := ⟨width, height, 0, 0⟩
    normal := normal
    baseNormal := normal
    tangent := tb.1
    bitangent := tb.2
    baseTangent := tb.1
    baseBitangent := tb.2
    decay := decay
    morton := computeMorton px pz
    dirty := DIRTY_ALL
    visible := true
    lodLevel := LOD_FULL
    castsShadow := false
    shadowIntensity := 0.3
    anim.flags := ANIM_NONE }

/-- Body of `addRectWithAnimation` (shadow fields not initialised). -/
def addRectWithAnimationInit (fm : FMath) (slot : RectLight)
    (px py pz width height nx ny nz r g b intensity decay radius : ℚ) (animFlags : ℕ)
    (targetX targetY targetZ duration delay : ℚ) (linearMode : ℕ)
    (rotAxisX rotAxisY rotAxisZ rotSpeed rotAngle : ℚ) (rotMode : ℕ)
    (flickerSpeed flickerIntensity flickerSeed : ℚ)
    (pulseSpeed pulseAmount : ℚ) (pulseTarget : ℕ) : RectLight :=
  let len := fm.sqrtf (nx * nx + ny * ny + nz * nz)
  let inv := if len > 0 then 1 / len else 0
  let normal : Vec4 := ⟨nx * inv, ny * inv, nz * inv, 0⟩
  let tb := buildOrthonormalBasis fm normal
  let l := { slot with
    baseWorldPos := ⟨px, py, pz, radius⟩
    animOffset := ⟨0, 0, 0, 0⟩
    worldPos := ⟨px, py, pz, radius⟩
    color := ⟨r, g, b, intensity⟩
    size := ⟨width, height, 0, 0⟩
    normal := normal
    baseNormal := normal
    tangent := tb.1
    bitangent := tb.2
    baseTangent := tb.1
    baseBitangent := tb.2
    decay := decay
    morton := computeMorton px pz
    dirty := DIRTY_ALL
    visible := true
    lodLevel := LOD_FULL
    anim.flags := animFlags }
  let l := if animFlags &&& ANIM_LINEAR ≠ 0 then
      { l with anim.linear := ⟨⟨targetX, targetY, targetZ, 0⟩, duration, delay, linearMode⟩ }
    else l
  let l := if animFlags &&& ANIM_ROTATE ≠ 0 then
      let axis : Vec4 := ⟨rotAxisX, rotAxisY, rotAxisZ, 0⟩
      let len := fm.sqrtf (rotAxisX * rotAxisX + rotAxisY * rotAxisY + rotAxisZ * rotAxisZ)
      let axis := if len > 0 then ⟨axis.x / len, axis.y / len, axis.z / len, axis.w⟩ else axis
      { l with anim.rotation := ⟨axis, rotSpeed, rotAngle, rotMode⟩ }
    else l
  let l := if animFlags &&& ANIM_FLICKER ≠ 0 then
      { l with anim.flicker := ⟨flickerSpeed, flickerIntensity, flickerSeed⟩ } else l
  let l := if animFlags &&& ANIM_PULSE ≠ 0 then
      { l with anim.pulse := ⟨pulseSpeed, pulseAmount, pulseTarget⟩ } else l
  l

-- ──────────────────────────────────────────────────────────────
--                  STATE-LEVEL CREATION ENTRY POINTS
-- ──────────────────────────────────────────────────────────────
-- Each returns the new state and the C return value (new index, or the
-- sentinel -1 on capacity exhaustion).  `slot` is the stale contents of the
-- array cell being initialised.

def add (s : ClusterState) (slot : PointLight)
    (px py pz radius r g b decay speed animRadius intensity : ℚ) : ClusterState × ℤ :=
  if s.pointLights.length ≥ s.maxLights then (s, -1)
  else
    ({ s with
        pointLights := s.pointLights ++ [addInit slot px py pz radius r g b decay speed animRadius intensity]
        hasAnimatedLights := s.hasAnimatedLights || decide (speed ≠ 0)
        needsSort := true
        hasPointLights := true },
     (s.pointLights.length : ℤ))

def addFast (s : ClusterState) (slot : PointLight)
    (px py pz radius r g b intensity : ℚ) : ClusterState × ℤ :=
  if s.pointLights.length ≥ s.maxLights then (s, -1)
  else
    ({ s with
        pointLights := s.pointLights ++ [addFastInit slot px py pz radius r g b intensity]
        needsSort := true
        hasPointLights := true },
     (s.pointLights.length : ℤ))

/-- The animation-parameter branches of `addPointWithAnimation` each set the
global `hasAnimatedLights` when taken. -/
def pointAnimBranchTaken (animFlags : ℕ) : Bool :=
  decide (animFlags &&& (ANIM_CIRCULAR ||| ANIM_LINEAR ||| ANIM_WAVE ||| ANIM_FLICKER ||| ANIM_PULSE) ≠ 0)

def addPointWithAnimation (fm : FMath) (s : ClusterState) (slot : PointLight)
    (px py pz radius r g b intensity decay : ℚ) (animFlags : ℕ)
    (circSpeed circRadius : ℚ)
    (targetX targetY targetZ duration delay : ℚ) (linearMode : ℕ)
    (waveAxisX waveAxisY waveAxisZ waveSpeed waveAmplitude wavePhase : ℚ)
    (flickerSpeed flickerIntensity flickerSeed : ℚ)
    (pulseSpeed pulseAmount : ℚ) (pulseTarget : ℕ) : ClusterState × ℤ :=
  if s.pointLights.length ≥ s.maxLights then (s, -1)
  else
    ({ s with
        pointLights := s.pointLights ++
          [addPointWithAnimationInit fm slot px py pz radius r g b intensity decay animFlags
             circSpeed circRadius targetX targetY targetZ duration delay linearMode
             waveAxisX waveAxisY waveAxisZ waveSpeed waveAmplitude wavePhase
             flickerSpeed flickerIntensity flickerSeed pulseSpeed pulseAmount pulseTarget]
        hasAnimatedLights := s.hasAnimatedLights || pointAnimBranchTaken animFlags
        needsSort := true
        hasPointLights := true },
     (s.pointLights.length : ℤ))

def addSpot (fm : FMath) (s : ClusterState) (slot : SpotLight)
    (px py pz radius r g b dx dy dz angle penumbra decay intensity : ℚ) : ClusterState × ℤ :=
  if s.spotLights.length ≥ s.maxLights then (s, -1)
  else
    ({ s with
        spotLights := s.spotLights ++
          [addSpotInit fm slot px py pz radius r g b dx dy dz angle penumbra decay intensity]
        needsSort := true
        hasSpotLights := true },
     (s.spotLights.length : ℤ))

def spotAnimBranchTaken (animFlags : ℕ) : Bool :=
  decide (animFlags &&& (ANIM_LINEAR ||| ANIM_ROTATE ||| ANIM_FLICKER ||| ANIM_PULSE) ≠ 0)

def addSpotWithAnimation (fm : FMath) (s : ClusterState) (slot : SpotLight)
    (px py pz radius r g b dx dy dz angle penumbra decay intensity : ℚ) (animFlags : ℕ)
    (targetX targetY targetZ duration delay : ℚ) (linearMode : ℕ)
    (rotAxisX rotAxisY rotAxisZ rotSpeed rotAngle : ℚ) (rotMode : ℕ)
    (flickerSpeed flickerIntensity flickerSeed : ℚ)
    (pulseSpeed pulseAmount : ℚ) (pulseTarget : ℕ) : ClusterState × ℤ :=
  if s.spotLights.length ≥ s.maxLights then (s, -1)
  else
    ({ s with
        spotLights := s.spotLights ++
          [addSpotWithAnimationInit fm slot px py pz radius r g b dx dy dz angle penumbra decay
             intensity animFlags targetX targetY targetZ duration delay linearMode
             rotAxisX rotAxisY rotAxisZ rotSpeed rotAngle rotMode
             flickerSpeed flickerIntensity flickerSeed pulseSpeed pulseAmount pulseTarget]
        hasAnimatedLights := s.hasAnimatedLights || spotAnimBranchTaken animFlags
        needsSort := true
        hasSpotLights := true },
     (s.spotLights.length : ℤ))

def addRect (fm : FMath) (s : ClusterState) (slot : RectLight)
    (px py pz width height nx ny nz r g b intensity decay radius : ℚ) : ClusterState × ℤ :=
  if s.rectLights.length ≥ s.maxLights then (s, -1)
  else
    ({ s with
        rectLights := s.rectLights ++
          [addRectInit fm slot px py pz width height nx ny nz r g b intensity decay radius]
        needsSort := true
        hasRectLights := true },
     (s.rectLights.length : ℤ))

def addRectWithAnimation (fm : FMath) (s : ClusterState) (slot : RectLight)
    (px py pz width height nx ny nz r g b intensity decay radius : ℚ) (animFlags : ℕ)
    (targetX targetY targetZ duration delay : ℚ) (linearMode : ℕ)
    (rotAxisX rotAxisY rotAxisZ rotSpeed rotAngle : ℚ) (rotMode : ℕ)
    (flickerSpeed flickerIntensity flickerSeed : ℚ)
    (pulseSpeed pulseAmount : ℚ) (pulseTarget : ℕ) : ClusterState × ℤ :=
  if s.rectLights.length ≥ s.maxLights then (s, -1)
  else
    ({ s with
        rectLights := s.rectLights ++
          [addRectWithAnimationInit fm slot px py pz width height nx ny nz r g b intensity decay
             radius animFlags targetX targetY targetZ duration delay linearMode
             rotAxisX rotAxisY rotAxisZ rotSpeed rotAngle rotMode
             flickerSpeed flickerIntensity flickerSeed pulseSpeed pulseAmount pulseTarget]
        hasAnimatedLights := s.hasAnimatedLights || spotAnimBranchTaken animFlags
        needsSort := true
        hasRectLights := true },
     (s.rectLights.length : ℤ))

-- ──────────────────────────────────────────────────────────────
--                   BULK LIGHT INITIALIZATION
-- ──────────────────────────────────────────────────────────────
/-- The per-light slice of the flat parameter arrays shared by both bulk entry
points: `positions[4i..]`, `colors[4i..]`, `decays[i]`, `animFlags[i]`
(a NULL `animFlags` pointer is modelled by passing zero flags), and the packed
animation block `animParams[14i..]` = `[circular(2), wave(6), flicker(3),
pulse(3)]` (reinterpreted as `[linear(6), rotation(5+shared mode), pulse(3)]`
by the spot/rect branches of `bulkAddLights`). -/
structure BulkEntry where
  type : ℕ
  position : Vec4
  color : Vec4
  decay : ℚ
  animFlags : ℕ
  animParams : ℕ → ℚ

/-- Per-light body of `bulkAddPointLights` (and, identically, of the point
branch of `bulkAddLights`): no linear branch, no shadow-field writes. -/
def bulkPointInit (fm : FMath) (slot : PointLight) (e : BulkEntry) : PointLight :=
  let l := { slot with
    baseWorldPos := e.position
    animOffset := ⟨0, 0, 0, 0⟩
    worldPos := e.position
    baseColor := e.color
    color := e.color
    decay := e.decay
    morton := computeMorton e.position.x e.position.z
    dirty := DIRTY_ALL
    visible := true
    lodLevel := LOD_FULL
    anim.flags := e.animFlags }
  if l.anim.flags ≠ ANIM_NONE then
    let l := if l.anim.flags &&& ANIM_CIRCULAR ≠ 0 then
        { l with anim.circular := ⟨e.animParams 0, e.animParams 1⟩ } else l
    let l := if l.anim.flags &&& ANIM_WAVE ≠ 0 then
        let ax := e.animParams 2
        let ay := e.animParams 3
        let az := e.animParams 4
        let len := fm.sqrtf (ax * ax + ay * ay + az * az)
        let axis : Vec4 := if len > 0 then ⟨ax / len, ay / len, az / len, 0⟩ else ⟨ax, ay, az, 0⟩
        { l with anim.wave := ⟨axis, e.animParams 5, e.animParams 6, e.animParams 7⟩ }
      else l
    let l := if l.anim.flags &&& ANIM_FLICKER ≠ 0 then
        { l with anim.flicker := ⟨e.animParams 8, e.animParams 9, e.animParams 10⟩ } else l
    let l := if l.anim.flags &&& ANIM_PULSE ≠ 0 then
        { l with anim.pulse := ⟨e.animParams 11, e.animParams 12, f2u8 (e.animParams 13)⟩ }
      else l
    l
  else l

/-- Per-light body of the spot branch of `bulkAddLights`.  The direction is
copied from `spotParams` WITHOUT normalisation; the rotation mode reuses the
linear-mode slot `animParams[ai+5]`. -/
def bulkSpotInit (slot : SpotLight) (e : BulkEntry) (spotPar : ℕ → ℚ) : SpotLight :=
  let l := { slot with
    baseWorldPos := e.position
    animOffset := ⟨0, 0, 0, 0⟩
    worldPos := e.position
    color := e.color
    direction := ⟨spotPar 0, spotPar 1, spotPar 2, 0⟩
    baseDir := ⟨spotPar 0, spotPar 1, spotPar 2, 0⟩
    angle := spotPar 3
    penumbra := spotPar 4
    decay := e.decay
    morton := computeMorton e.position.x e.position.z
    dirty := DIRTY_ALL
    visible := true
    lodLevel := LOD_FULL
    anim.flags := e.animFlags }
  if l.anim.flags ≠ ANIM_NONE then
    let l := if l.anim.flags &&& ANIM_LINEAR ≠ 0 then
        { l with anim.linear :=
            ⟨⟨e.animParams 0, e.animParams 1, e.animParams 2, 0⟩,
             e.animParams 3, e.animParams 4, f2u8 (e.animParams 5)⟩ }
      else l
    let l := if l.anim.flags &&& ANIM_PULSE ≠ 0 then
        { l with anim.pulse := ⟨e.animParams 11, e.animParams 12, f2u8 (e.animParams 13)⟩ }
      else l
    let l := if l.anim.flags &&& ANIM_ROTATE ≠ 0 then
        { l with anim.rotation :=
            ⟨⟨e.animParams 6, e.animParams 7, e.animParams 8, slot.anim.rotation.axis.w⟩,
             e.animParams 9, e.animParams 10, f2u8 (e.animParams 5)⟩ }
      else l
    l
  else l

/-- Per-light body of the rect branch of `bulkAddLights`: the normal is
normalised and the basis rebuilt, as in `addRect`. -/
def bulkRectInit (fm : FMath) (slot : RectLight) (e : BulkEntry) (rectPar : ℕ → ℚ) : RectLight :=
  let nx := rectPar 2
  let ny := rectPar 3
  let nz := rectPar 4
  let nlen := fm.sqrtf (nx * nx + ny * ny + nz * nz)
  let ninv := if nlen > 0 then 1 / nlen else 0
  let normal : Vec4 := ⟨nx * ninv, ny * ninv, nz * ninv, 0⟩
  let tb := buildOrthonormalBasis fm normal
  let l := { slot with
    baseWorldPos := e.position
    animOffset := ⟨0, 0, 0, 0⟩
    worldPos := e.position
    color := e.color
    size := ⟨rectPar 0, rectPar 1, 0, 0⟩
    normal := normal
    baseNormal := normal
    tangent := tb.1
    bitangent := tb.2
    baseTangent := tb.1
    baseBitangent := tb.2
    decay := e.decay
    morton := computeMorton e.position.x e.position.z
    dirty := DIRTY_ALL
    visible := true
    lodLevel := LOD_FULL
    anim.flags := e.animFlags }
  if l.anim.flags ≠ ANIM_NONE then
    let l := if l.anim.flags &&& ANIM_LINEAR ≠ 0 then
        { l with anim.linear :=
            ⟨⟨e.animParams 0, e.animParams 1, e.animParams 2, 0⟩,
             e.animParams 3, e.animParams 4, f2u8 (e.animParams 5)⟩ }
      else l
    let l := if l.anim.flags &&& ANIM_PULSE ≠ 0 then
        { l with anim.pulse := ⟨e.animParams 11, e.animParams 12, f2u8 (e.animParams 13)⟩ }
      else l
    let l := if l.anim.flags &&& ANIM_ROTATE ≠ 0 then
        { l with anim.rotation :=
            ⟨⟨e.animParams 6, e.animParams 7, e.animParams 8, slot.anim.rotation.axis.w⟩,
             e.animParams 9, e.animParams 10, f2u8 (e.animParams 5)⟩ }
      else l
    l
  else l

/-- `bulkAddPointLights`: clamps the batch to the remaining capacity, appends
the initialised lights, returns the number actually added. -/
def bulkAddPointLights (fm : FMath) (s : ClusterState) (slots : ℕ → PointLight)
    (count : ℕ) (entries : ℕ → BulkEntry) : ClusterState × ℕ :=
  let count := if s.pointLights.length + count > s.maxLights
               then s.maxLights - s.pointLights.length else count
  let added := count
  let newLights := (List.range count).map
    (fun i => bulkPointInit fm (slots (s.pointLights.length + i)) (entries i))
  let anyAnim := (List.range count).any (fun i => pointAnimBranchTaken (entries i).animFlags)
  ({ s with
      pointLights := s.pointLights ++ newLights
      hasAnimatedLights := s.hasAnimatedLights || anyAnim
      needsSort := true
      hasPointLights := true },
   added)

/-- Loop of `bulkAddLights`: entries are processed in order; a full kind (or
an unknown type tag) is skipped by `continue`.  `spotIdx`/`rectIdx` advance
only when a light of that kind is actually added. -/
def bulkAddLightsGo (fm : FMath) (spotParams rectParams : ℕ → ℕ → ℚ)
    (pslot : ℕ → PointLight) (sslot : ℕ → SpotLight) (rslot : ℕ → RectLight) :
    List BulkEntry → ClusterState → ℕ → ℕ → ℕ → ClusterState × ℕ
  | [], s, _, _, added => (s, added)
  | e :: rest, s, spotIdx, rectIdx, added =>
    if e.type = 0 then
      if s.pointLights.length ≥ s.maxLights then
        bulkAddLightsGo fm spotParams rectParams pslot sslot rslot rest s spotIdx rectIdx added
      else
        bulkAddLightsGo fm spotParams rectParams pslot sslot rslot rest
          { s with
              pointLights := s.pointLights ++ [bulkPointInit fm (pslot s.pointLights.length) e]
              hasAnimatedLights := s.hasAnimatedLights || pointAnimBranchTaken e.animFlags
              hasPointLights := true }
          spotIdx rectIdx (added + 1)
    else if e.type = 1 then
      if s.spotLights.length ≥ s.maxLights then
        bulkAddLightsGo fm spotParams rectParams pslot sslot rslot rest s spotIdx rectIdx added
      else
        bulkAddLightsGo fm spotParams rectParams pslot sslot rslot rest
          { s with
              spotLights := s.spotLights ++
                [bulkSpotInit (sslot s.spotLights.length) e (spotParams spotIdx)]
              hasAnimatedLights := s.hasAnimatedLights || spotAnimBranchTaken e.animFlags
              hasSpotLights := true }
          (spotIdx + 1) rectIdx (added + 1)
    else if e.type = 2 then
      if s.rectLights.length ≥ s.maxLights then
        bulkAddLightsGo fm spotParams rectParams pslot sslot rslot rest s spotIdx rectIdx added
      else
        bulkAddLightsGo fm spotParams rectParams pslot sslot rslot rest
          { s with
              rectLights := s.rectLights ++
                [bulkRectInit fm (rslot s.rectLights.length) e (rectParams rectIdx)]
              hasAnimatedLights := s.hasAnimatedLights || spotAnimBranchTaken e.animFlags
              hasRectLights := true }
          spotIdx (rectIdx + 1) (added + 1)
    else
      bulkAddLightsGo fm spotParams rectParams pslot sslot rslot rest s spotIdx rectIdx added

/-- `bulkAddLights`: runs the loop and finally marks the ordering stale. -/
def bulkAddLights (fm : FMath) (s : ClusterState) (spotParams rectParams : ℕ → ℕ → ℚ)
    (pslot : ℕ → PointLight) (sslot : ℕ → SpotLight) (rslot : ℕ → RectLight)
    (entries : List BulkEntry) : ClusterState × ℕ :=
  let r := bulkAddLightsGo fm spotParams rectParams pslot sslot rslot entries s 0 0 0
  ({ r.1 with needsSort := true }, r.2)

-- ──────────────────────────────────────────────────────────────
--              PROPERTY UPDATES (MACRO-BASED SETTERS)
-- ──────────────────────────────────────────────────────────────
/-- Per-light body of `UPDATE_POSITION`: rewrites the authored position and
the cached world position, recomputes the Morton key, marks the dirty bit. -/
def updatePositionOnLight (l : PointLight) (x y z : ℚ) : PointLight :=
  { l with baseWorldPos.x := x, baseWorldPos.y := y, baseWorldPos.z := z,
           worldPos.x := x, worldPos.y := y, worldPos.z := z,
           morton := computeMorton x z,
           dirty := l.dirty ||| DIRTY_POSITION }

/-- `updatePointLightPosition` (macro `UPDATE_POSITION` instantiated at
`Point`; the spot/rect instantiations are field-for-field identical):
out-of-range indices are silent no-ops, in-range updates also set the global
ordering-stale flag. -/
def updatePointLightPosition (s : ClusterState) (idx : ℤ) (x y z : ℚ) : ClusterState :=
  if 0 ≤ idx ∧ idx < (s.pointLights.length : ℤ) then
    { s with
        pointLights := s.pointLights.modify (fun l => updatePositionOnLight l x y z) idx.toNat
        needsSort := true }
  else s

/-- Per-light body of `UPDATE_RADIUS`: rewrites `baseWorldPos.w` and
`worldPos.w` only (no Morton recomputation). -/
def updateRadiusOnLight (l : PointLight) (radius : ℚ) : PointLight :=
  { l with baseWorldPos.w := radius, worldPos.w := radius,
           dirty := l.dirty ||| DIRTY_POSITION }

def updatePointLightRadius (s : ClusterState) (idx : ℤ) (radius : ℚ) : ClusterState :=
  if 0 ≤ idx ∧ idx < (s.pointLights.length : ℤ) then
    { s with pointLights := s.pointLights.modify (fun l => updateRadiusOnLight l radius) idx.toNat }
  else s

/-- Per-light body of `UPDATE_INTENSITY`: writes the live `color.w` only
(`baseColor` untouched). -/
def updateIntensityOnLight (l : PointLight) (intensity : ℚ) : PointLight :=
  { l with color.w := intensity, dirty := l.dirty ||| DIRTY_COLOR }

-- ──────────────────────────────────────────────────────────────
--            CONCRETE FIXTURES FOR WITNESSES
-- ──────────────────────────────────────────────────────────────
/-- Interpretation of the math library with `sinf = cosf = sqrtf = 0`. -/
def zeroFM : FMath := ⟨fun _ => 0, fun _ => 0, fun _ => 0⟩

/-- Interpretation of the math library with `sinf = cosf = sqrtf = 1`. -/
def oneFM : FMath := ⟨fun _ => 1, fun _ => 1, fun _ => 1⟩

/-- Interpretation whose `sqrtf` answers the perfect square 4 exactly. -/
def sq4FM : FMath := ⟨fun _ => 0, fun _ => 0, fun q => if q = 4 then 2 else 0⟩

def zeroVec : Vec4 := ⟨0, 0, 0, 0⟩

def defaultAnim : AnimationParams :=
  { flags := 0
    circular := ⟨0, 0⟩
    linear := ⟨zeroVec, 0, 0, 0⟩
    wave := ⟨zeroVec, 0, 0, 0⟩
    flicker := ⟨0, 0, 0⟩
    pulse := ⟨0, 0, 0⟩
    rotation := ⟨zeroVec, 0, 0, 0⟩ }

def basePointLight : PointLight :=
  { baseWorldPos := ⟨0, 0, 0, 5⟩
    animOffset := zeroVec
    worldPos := ⟨0, 0, 0, 5⟩
    color := ⟨1, 1, 1, 1⟩
    viewPos := zeroVec
    baseColor := ⟨1, 1, 1, 1⟩
    anim := defaultAnim
    decay := 2
    morton := 0
    dirty := 0
    visible := true
    lodLevel := 3
    castsShadow := false
    shadowIntensity := 3/10 }

def baseSpotLight : SpotLight :=
  { baseWorldPos := ⟨0, 0, 0, 5⟩
    animOffset := zeroVec
    worldPos := ⟨0, 0, 0, 5⟩
    color := ⟨1, 1, 1, 1⟩
    direction := ⟨0, 0, 1, 0⟩
    viewPos := zeroVec
    viewDir := zeroVec
    baseDir := ⟨0, 0, 1, 0⟩
    anim := defaultAnim
    decay := 2
    angle := 1
    penumbra := 0
    morton := 0
    dirty := 0
    visible := true
    lodLevel := 3
    castsShadow := false
    shadowIntensity := 3/10 }

def baseRectLight : RectLight :=
  { baseWorldPos := ⟨0, 0, 0, 5⟩
    animOffset := zeroVec
    worldPos := ⟨0, 0, 0, 5⟩
    color := ⟨1, 1, 1, 1⟩
    size := ⟨1, 1, 0, 0⟩
    normal := ⟨0, 0, 1, 0⟩
    tangent := ⟨0, 1, 0, 0⟩
    bitangent := ⟨1, 0, 0, 0⟩
    viewPos := zeroVec
    viewNormal := zeroVec
    viewTangent := zeroVec
    baseNormal := ⟨0, 0, 1, 0⟩
    baseTangent := ⟨0, 1, 0, 0⟩
    baseBitangent := ⟨1, 0, 0, 0⟩
    anim := defaultAnim
    decay := 2
    morton := 0
    dirty := 0
    visible := true
    lodLevel := 3
    castsShadow := false
    shadowIntensity := 3/10 }

/-- Identity view matrix cache (camera at origin). -/
def idView : ViewCache := ⟨1, 0, 0, 0, 1, 0, 0, 0, 1, 0, 0, 0⟩

/-- The C default frustum / LOD settings. -/
def defaultFrustum : Frustum := ⟨1/10, 1000, 1⟩

-- ──────────────────────────────────────────────────────────────
--                    SUPPORTING LEMMAS
-- ──────────────────────────────────────────────────────────────
theorem linearT_at_zero (mode : ℕ) : linearT mode 0 = 0 := by
  unfold linearT fmodf f2i truncQ clampf
  split_ifs <;> first | linarith | norm_num

theorem linearT_once_at_one : linearT LINEAR_ONCE 1 = 1 := by
  unfold linearT clampf LINEAR_ONCE LINEAR_LOOP LINEAR_PINGPONG
  norm_num

theorem linearT_loop_at_one : linearT LINEAR_LOOP 1 = 0 := by
  unfold linearT fmodf truncQ LINEAR_LOOP
  norm_num

theorem lerpf_zero (a b : ℚ) : lerpf a b 0 = a := by unfold lerpf; ring

theorem lerpf_one (a b : ℚ) : lerpf a b 1 = b := by unfold lerpf; ring

/-- Literal values of the bit tests that appear once a concrete flag word is
substituted into the animation processors. -/
theorem landFacts :
    ((2:ℕ) &&& 1 = 0) ∧ ((2:ℕ) &&& 2 = 2) ∧ ((2:ℕ) &&& 4 = 0) ∧ ((2:ℕ) &&& 8 = 0) ∧
    ((2:ℕ) &&& 16 = 0) ∧ ((2:ℕ) &&& 32 = 0) ∧
    ((8:ℕ) &&& 1 = 0) ∧ ((8:ℕ) &&& 2 = 0) ∧ ((8:ℕ) &&& 4 = 0) ∧ ((8:ℕ) &&& 8 = 8) ∧
    ((8:ℕ) &&& 16 = 0) ∧ ((8:ℕ) &&& 32 = 0) ∧
    ((24:ℕ) &&& 1 = 0) ∧ ((24:ℕ) &&& 2 = 0) ∧ ((24:ℕ) &&& 4 = 0) ∧ ((24:ℕ) &&& 8 = 8) ∧
    ((24:ℕ) &&& 16 = 16) ∧ ((24:ℕ) &&& 32 = 0) ∧
    ((16:ℕ) &&& 1 = 0) ∧ ((16:ℕ) &&& 2 = 0) ∧ ((16:ℕ) &&& 4 = 0) ∧ ((16:ℕ) &&& 8 = 0) ∧
    ((16:ℕ) &&& 16 = 16) ∧ ((16:ℕ) &&& 32 = 0) ∧
    ((1:ℕ) &&& 1 = 1) ∧ ((1:ℕ) &&& 2 = 0) := by decide

/-- With only the Linear flag set, the animation offset is exactly the
linear-interpolation offset (point lights). -/
theorem pointLinearOffset (fm : FMath) (l : PointLight) (time : ℚ)
    (hfl : l.anim.flags = ANIM_LINEAR) (ht : time ≥ l.anim.linear.delay) :
    (processPointLightAnimation fm l time).animOffset =
      ⟨lerpf 0 (l.anim.linear.targetPos.x - l.baseWorldPos.x)
         (linearT l.anim.linear.mode ((time - l.anim.linear.delay) / l.anim.linear.duration)),
       lerpf 0 (l.anim.linear.targetPos.y - l.baseWorldPos.y)
         (linearT l.anim.linear.mode ((time - l.anim.linear.delay) / l.anim.linear.duration)),
       lerpf 0 (l.anim.linear.targetPos.z - l.baseWorldPos.z)
         (linearT l.anim.linear.mode ((time - l.anim.linear.delay) / l.anim.linear.duration)),
       0⟩ := by
  simp only [processPointLightAnimation]
  norm_num [ANIM_NONE, ANIM_CIRCULAR, ANIM_LINEAR, ANIM_WAVE, ANIM_FLICKER, ANIM_PULSE, hfl, ht,
    landFacts]

/-- With only the Linear flag set, the animation offset is exactly the
linear-interpolation offset (spot lights). -/
theorem spotLinearOffset (fm : FMath) (l : SpotLight) (time : ℚ)
    (hfl : l.anim.flags = ANIM_LINEAR) (ht : time ≥ l.anim.linear.delay) :
    (processSpotLightAnimation fm l time).animOffset =
      ⟨lerpf 0 (l.anim.linear.targetPos.x - l.baseWorldPos.x)
         (linearT l.anim.linear.mode ((time - l.anim.linear.delay) / l.anim.linear.duration)),
       lerpf 0 (l.anim.linear.targetPos.y - l.baseWorldPos.y)
         (linearT l.anim.linear.mode ((time - l.anim.linear.delay) / l.anim.linear.duration)),
       lerpf 0 (l.anim.linear.targetPos.z - l.baseWorldPos.z)
         (linearT l.anim.linear.mode ((time - l.anim.linear.delay) / l.anim.linear.duration)),
       0⟩ := by
  simp only [processSpotLightAnimation]
  norm_num [ANIM_NONE, ANIM_LINEAR, ANIM_ROTATE, ANIM_FLICKER, ANIM_PULSE, hfl, ht, landFacts]

/-- With only the Linear flag set, the animation offset is exactly the
linear-interpolation offset (rect lights). -/
theorem rectLinearOffset (fm : FMath) (l : RectLight) (time : ℚ)
    (hfl : l.anim.flags = ANIM_LINEAR) (ht : time ≥ l.anim.linear.delay) :
    (processRectLightAnimation fm l time).animOffset =
      ⟨lerpf 0 (l.anim.linear.targetPos.x - l.baseWorldPos.x)
         (linearT l.anim.linear.mode ((time - l.anim.linear.delay) / l.anim.linear.duration)),
       lerpf 0 (l.anim.linear.targetPos.y - l.baseWorldPos.y)
         (linearT l.anim.linear.mode ((time - l.anim.linear.delay) / l.anim.linear.duration)),
       lerpf 0 (l.anim.linear.targetPos.z - l.baseWorldPos.z)
         (linearT l.anim.linear.mode ((time - l.anim.linear.delay) / l.anim.linear.duration)),
       0⟩ := by
  simp only [processRectLightAnimation]
  norm_num [ANIM_NONE, ANIM_LINEAR, ANIM_ROTATE, ANIM_FLICKER, ANIM_PULSE, hfl, ht, landFacts]

/-- C7: For every light with Linear animation and positive duration: at
`time = delay` the positional offset is zero (all modes); at
`time = delay + duration` with mode `Once` the offset equals
`targetPos - baseWorldPos`; and with mode `Loop` the offset at
`time = delay + duration` equals the offset at `time = delay` (the
fractional phase wraps back to 0).  Holds for point, spot and rect lights. -/
theorem C7_linear_endpoint_values (fm : FMath)
    (l : PointLight) (s : SpotLight) (r : RectLight)
    (hl : l.anim.flags = ANIM_LINEAR) (hld : 0 < l.anim.linear.duration)
    (hs : s.anim.flags = ANIM_LINEAR) (hsd : 0 < s.anim.linear.duration)
    (hr : r.anim.flags = ANIM_LINEAR) (hrd : 0 < r.anim.linear.duration) :
    ((processPointLightAnimation fm l l.anim.linear.delay).animOffset = zeroVec
     ∧ (l.anim.linear.mode = LINEAR_ONCE →
         (processPointLightAnimation fm l
             (l.anim.linear.delay + l.anim.linear.duration)).animOffset =
           ⟨l.anim.linear.targetPos.x - l.baseWorldPos.x,
            l.anim.linear.targetPos.y - l.baseWorldPos.y,
            l.anim.linear.targetPos.z - l.baseWorldPos.z, 0⟩)
     ∧ (l.anim.linear.mode = LINEAR_LOOP →
         (processPointLightAnimation fm l
             (l.anim.linear.delay + l.anim.linear.duration)).animOffset =
           (processPointLightAnimation fm l l.anim.linear.delay).animOffset))
    ∧ ((processSpotLightAnimation fm s s.anim.linear.delay).animOffset = zeroVec
     ∧ (s.anim.linear.mode = LINEAR_ONCE →
         (processSpotLightAnimation fm s
             (s.anim.linear.delay + s.anim.linear.duration)).animOffset =
           ⟨s.anim.linear.targetPos.x - s.baseWorldPos.x,
            s.anim.linear.targetPos.y - s.baseWorldPos.y,
            s.anim.linear.targetPos.z - s.baseWorldPos.z, 0⟩)
     ∧ (s.anim.linear.mode = LINEAR_LOOP →
         (processSpotLightAnimation fm s
             (s.anim.linear.delay + s.anim.linear.duration)).animOffset =
           (processSpotLightAnimation fm s s.anim.linear.delay).animOffset))
    ∧ ((processRectLightAnimation fm r r.anim.linear.delay).animOffset = zeroVec
     ∧ (r.anim.linear.mode = LINEAR_ONCE →
         (processRectLightAnimation fm r
             (r.anim.linear.delay + r.anim.linear.duration)).animOffset =
           ⟨r.anim.linear.targetPos.x - r.baseWorldPos.x,
            r.anim.linear.targetPos.y - r.baseWorldPos.y,
            r.anim.linear.targetPos.z - r.baseWorldPos.z, 0⟩)
     ∧ (r.anim.linear.mode = LINEAR_LOOP →
         (processRectLightAnimation fm r
             (r.anim.linear.delay + r.anim.linear.duration)).animOffset =
           (processRectLightAnimation fm r r.anim.linear.delay).animOffset)) := by
  have hzl : (l.anim.linear.delay - l.anim.linear.delay) / l.anim.linear.duration = 0 := by
    rw [sub_self, zero_div]
  have hol : (l.anim.linear.delay + l.anim.linear.duration - l.anim.linear.delay) /
      l.anim.linear.duration = 1 := by
    rw [add_sub_cancel_left, div_self hld.ne']
  have hzs : (s.anim.linear.delay - s.anim.linear.delay) / s.anim.linear.duration = 0 := by
    rw [sub_self, zero_div]
  have hos : (s.anim.linear.delay + s.anim.linear.duration - s.anim.linear.delay) /
      s.anim.linear.duration = 1 := by
    rw [add_sub_cancel_left, div_self hsd.ne']
  have hzr : (r.anim.linear.delay - r.anim.linear.delay) / r.anim.linear.duration = 0 := by
    rw [sub_self, zero_div]
  have hor : (r.anim.linear.delay + r.anim.linear.duration - r.anim.linear.delay) /
      r.anim.linear.duration = 1 := by
    rw [add_sub_cancel_left, div_self hrd.ne']
  refine ⟨⟨?_, ?_, ?_⟩, ⟨?_, ?_, ?_⟩, ⟨?_, ?_, ?_⟩⟩
  · rw [pointLinearOffset fm l _ hl (le_refl _), hzl, linearT_at_zero]
    simp [lerpf_zero, zeroVec]
  · intro hm
    rw [pointLinearOffset fm l _ hl (by linarith), hol, hm, linearT_once_at_one]
    simp [lerpf_one]
  · intro hm
    rw [pointLinearOffset fm l _ hl (by linarith), pointLinearOffset fm l _ hl (le_refl _),
      hol, hzl, hm, linearT_loop_at_one, linearT_at_zero]
  · rw [spotLinearOffset fm s _ hs (le_refl _), hzs, linearT_at_zero]
    simp [lerpf_zero, zeroVec]
  · intro hm
    rw [spotLinearOffset fm s _ hs (by linarith), hos, hm, linearT_once_at_one]
    simp [lerpf_one]
  · intro hm
    rw [spotLinearOffset fm s _ hs (by linarith), spotLinearOffset fm s _ hs (le_refl _),
      hos, hzs, hm, linearT_loop_at_one, linearT_at_zero]
  · rw [rectLinearOffset fm r _ hr (le_refl _), hzr, linearT_at_zero]
    simp [lerpf_zero, zeroVec]
  · intro hm
    rw [rectLinearOffset fm r _ hr (by linarith), hor, hm, linearT_once_at_one]
    simp [lerpf_one]
  · intro hm
    rw [rectLinearOffset fm r _ hr (by linarith), rectLinearOffset fm r _ hr (le_refl _),
      hor, hzr, hm, linearT_loop_at_one, linearT_at_zero]

/-- Witness for C7: a concrete linear-animated light of each kind
(`target = (1,2,3)`, `duration = 2 > 0`, `delay = 5`), evaluated at
`time = delay`. -/
theorem C7_witness :
    ((0:ℚ) < 2) ∧
    (processPointLightAnimation zeroFM
        { basePointLight with
            anim.flags := ANIM_LINEAR,
            anim.linear := ⟨⟨1, 2, 3, 0⟩, 2, 5, LINEAR_ONCE⟩ } 5).animOffset = zeroVec ∧
    (processSpotLightAnimation zeroFM
        { baseSpotLight with
            anim.flags := ANIM_LINEAR,
            anim.linear := ⟨⟨1, 2, 3, 0⟩, 2, 5, LINEAR_ONCE⟩ } 5).animOffset = zeroVec ∧
    (processRectLightAnimation zeroFM
        { baseRectLight with
            anim.flags := ANIM_LINEAR,
            anim.linear := ⟨⟨1, 2, 3, 0⟩, 2, 5, LINEAR_ONCE⟩ } 5).animOffset = zeroVec :=
  ⟨by norm_num,
   (C7_linear_endpoint_values zeroFM
      { basePointLight with
          anim.flags := ANIM_LINEAR,
          anim.linear := ⟨⟨1, 2, 3, 0⟩, 2, 5, LINEAR_ONCE⟩ }
      { baseSpotLight with
          anim.flags := ANIM_LINEAR,
          anim.linear := ⟨⟨1, 2, 3, 0⟩, 2, 5, LINEAR_ONCE⟩ }
      { baseRectLight with
          anim.flags := ANIM_LINEAR,
          anim.linear := ⟨⟨1, 2, 3, 0⟩, 2, 5, LINEAR_ONCE⟩ }
      rfl (by norm_num) rfl (by norm_num) rfl (by norm_num)).1.1,
   (C7_linear_endpoint_values zeroFM
      { basePointLight with
          anim.flags := ANIM_LINEAR,
          anim.linear := ⟨⟨1, 2, 3, 0⟩, 2, 5, LINEAR_ONCE⟩ }
      { baseSpotLight with
          anim.flags := ANIM_LINEAR,
          anim.linear := ⟨⟨1, 2, 3, 0⟩, 2, 5, LINEAR_ONCE⟩ }
      { baseRectLight with
          anim.flags := ANIM_LINEAR,
          anim.linear := ⟨⟨1, 2, 3, 0⟩, 2, 5, LINEAR_ONCE⟩ }
      rfl (by norm_num) rfl (by norm_num) rfl (by norm_num)).2.1.1,
   (C7_linear_endpoint_values zeroFM
      { basePointLight with
          anim.flags := ANIM_LINEAR,
          anim.linear := ⟨⟨1, 2, 3, 0⟩, 2, 5, LINEAR_ONCE⟩ }
      { baseSpotLight with
          anim.flags := ANIM_LINEAR,
          anim.linear := ⟨⟨1, 2, 3, 0⟩, 2, 5, LINEAR_ONCE⟩ }
      { baseRectLight with
          anim.flags := ANIM_LINEAR,
          anim.linear := ⟨⟨1, 2, 3, 0⟩, 2, 5, LINEAR_ONCE⟩ }
      rfl (by norm_num) rfl (by norm_num) rfl (by norm_num)).2.2.1⟩

/-- C5 counterexample: with the C default frustum (`near = 0.1`,
`far = 1000`) and radius 5, a light at exactly `viewZ = radius - near = 4.9`
is NOT culled — the comparator `viewZ > radius - near` is strict, so the
boundary is exclusive, contradicting the claim that the boundary point is
culled. -/
theorem C5_counterexample :
    culledPredicate defaultFrustum (5 - defaultFrustum.viewNear) 5 = false := by
  have h1 : ¬((5:ℚ) - defaultFrustum.viewNear > 5 - defaultFrustum.viewNear) := lt_irrefl _
  have h2 : ¬((5:ℚ) - defaultFrustum.viewNear < -defaultFrustum.viewFar - 5) := by
    norm_num [defaultFrustum]
  simp [culledPredicate, h1, h2]

/-- C5 (amended): the culling comparator is strict, so the near boundary is
exclusive: a light at exactly `viewZ = radius - near` is NOT culled (provided
it is inside the far bound), any light strictly beyond that boundary is
culled, any light inside both bounds is not culled, and for all three light
kinds the packed visibility component is the logical AND of the host-set
`visible` flag with the negated culling result. -/
theorem C5_cull_boundary (fr : Frustum) (radius z : ℚ)
    (hfar : -fr.viewFar - radius ≤ radius - fr.viewNear) :
    culledPredicate fr (radius - fr.viewNear) radius = false
    ∧ (z > radius - fr.viewNear → culledPredicate fr z radius = true)
    ∧ (-fr.viewFar - radius ≤ z → z ≤ radius - fr.viewNear →
        culledPredicate fr z radius = false)
    ∧ (∀ (fm : FMath) (c : ViewCache) (t : ℚ) (l : PointLight),
        ((updatePointLightOne fm c fr t l).2).colorDecayVisible.w =
          packLightParams (updatePointLightOne fm c fr t l).1.decay
            ((updatePointLightOne fm c fr t l).1.visible &&
              !(culledPredicate fr (updatePointLightOne fm c fr t l).1.viewPos.z
                  (updatePointLightOne fm c fr t l).1.worldPos.w))
            (updatePointLightOne fm c fr t l).1.lodLevel)
    ∧ (∀ (fm : FMath) (c : ViewCache) (t : ℚ) (l : SpotLight),
        ((updateSpotLightOne fm c fr t l).2).angleParams.w =
          packVisibleLOD
            ((updateSpotLightOne fm c fr t l).1.visible &&
              !(culledPredicate fr (updateSpotLightOne fm c fr t l).1.viewPos.z
                  (updateSpotLightOne fm c fr t l).1.worldPos.w))
            (updateSpotLightOne fm c fr t l).1.lodLevel)
    ∧ (∀ (fm : FMath) (c : ViewCache) (t : ℚ) (l : RectLight),
        ((updateRectLightOne fm c fr t l).2).sizeParams.w =
          packVisibleLOD
            ((updateRectLightOne fm c fr t l).1.visible &&
              !(culledPredicate fr (updateRectLightOne fm c fr t l).1.viewPos.z
                  (updateRectLightOne fm c fr t l).1.worldPos.w))
            (updateRectLightOne fm c fr t l).1.lodLevel) := by
  refine ⟨?_, ?_, ?_, ?_, ?_, ?_⟩
  · simp only [culledPredicate, decide_eq_false_iff_not, not_or, not_lt]
    exact ⟨le_refl _, hfar⟩
  · intro hz
    simp only [culledPredicate, decide_eq_true_eq]
    exact Or.inl hz
  · intro h1 h2
    simp only [culledPredicate, decide_eq_false_iff_not, not_or, not_lt]
    exact ⟨h2, h1⟩
  · intro fm c t l; rfl
  · intro fm c t l; rfl
  · intro fm c t l; rfl

/-- Witness for C5 at the C default frustum and radius 5: the boundary point
`viewZ = 4.9` is not culled, while `viewZ = 5` (strictly beyond) is. -/
theorem C5_witness :
    (-defaultFrustum.viewFar - 5 ≤ (5:ℚ) - defaultFrustum.viewNear) ∧
    culledPredicate defaultFrustum (5 - defaultFrustum.viewNear) 5 = false ∧
    culledPredicate defaultFrustum 5 5 = true :=
  ⟨by norm_num [defaultFrustum],
   (C5_cull_boundary defaultFrustum 5 5 (by norm_num [defaultFrustum])).1,
   (C5_cull_boundary defaultFrustum 5 5 (by norm_num [defaultFrustum])).2.1
     (by norm_num [defaultFrustum])⟩

set_option maxHeartbeats 2000000 in
/-- Normal form of the point-light animation processor: every transient field
is recomputed from `baseWorldPos`, `baseColor` and the animation descriptor
alone. -/
theorem processPointLightAnimation_eval (fm : FMath) (l : PointLight) (t : ℚ) :
    processPointLightAnimation fm l t =
      (if l.anim.flags = ANIM_NONE then
        { l with animOffset := ⟨0, 0, 0, 0⟩, color := l.baseColor, worldPos := l.baseWorldPos }
      else
        let wave := fm.sinf (t * l.anim.wave.speed + l.anim.wave.phase) * l.anim.wave.amplitude
        let lx := lerpf 0 (l.anim.linear.targetPos.x - l.baseWorldPos.x)
          (linearT l.anim.linear.mode ((t - l.anim.linear.delay) / l.anim.linear.duration))
        let ly := lerpf 0 (l.anim.linear.targetPos.y - l.baseWorldPos.y)
          (linearT l.anim.linear.mode ((t - l.anim.linear.delay) / l.anim.linear.duration))
        let lz := lerpf 0 (l.anim.linear.targetPos.z - l.baseWorldPos.z)
          (linearT l.anim.linear.mode ((t - l.anim.linear.delay) / l.anim.linear.duration))
        let bx := if l.anim.flags &&& ANIM_LINEAR ≠ 0 ∧ t ≥ l.anim.linear.delay then lx
                  else if l.anim.flags &&& ANIM_CIRCULAR ≠ 0 then
                    fm.sinf (t * l.anim.circular.speed) * l.anim.circular.radius else 0
        let by_ := if l.anim.flags &&& ANIM_LINEAR ≠ 0 ∧ t ≥ l.anim.linear.delay then ly else 0
        let bz := if l.anim.flags &&& ANIM_LINEAR ≠ 0 ∧ t ≥ l.anim.linear.delay then lz
                  else if l.anim.flags &&& ANIM_CIRCULAR ≠ 0 then
                    fm.cosf (t * l.anim.circular.speed) * l.anim.circular.radius else 0
        let ax := if l.anim.flags &&& ANIM_WAVE ≠ 0 then bx + l.anim.wave.axis.x * wave else bx
        let ay := if l.anim.flags &&& ANIM_WAVE ≠ 0 then by_ + l.anim.wave.axis.y * wave else by_
        let az := if l.anim.flags &&& ANIM_WAVE ≠ 0 then bz + l.anim.wave.axis.z * wave else bz
        let pulse := pulseFactor fm l.anim.pulse t
        let cw := if l.anim.flags &&& ANIM_PULSE ≠ 0 ∧ l.anim.pulse.target &&& PULSE_INTENSITY ≠ 0
                  then l.baseColor.w * pulse
                  else if l.anim.flags &&& ANIM_FLICKER ≠ 0 then
                    l.baseColor.w * clampf (flickerFactor fm l.anim.flicker t) 0.1 2
                  else l.baseColor.w
        let ww := if l.anim.flags &&& ANIM_PULSE ≠ 0 ∧ l.anim.pulse.target &&& PULSE_RADIUS ≠ 0
                  then l.baseWorldPos.w * pulse else l.baseWorldPos.w
        { l with
            animOffset := ⟨ax, ay, az, 0⟩,
            worldPos := ⟨l.baseWorldPos.x + ax, l.baseWorldPos.y + ay, l.baseWorldPos.z + az, ww⟩,
            color := ⟨l.baseColor.x, l.baseColor.y, l.baseColor.z, cw⟩ }) := by
  by_cases h0 : l.anim.flags = ANIM_NONE
  · simp [processPointLightAnimation, h0]
  · by_cases h1 : l.anim.flags &&& ANIM_CIRCULAR ≠ 0 <;>
    by_cases h2 : l.anim.flags &&& ANIM_LINEAR ≠ 0 <;>
    by_cases h3 : t ≥ l.anim.linear.delay <;>
    by_cases h4 : l.anim.flags &&& ANIM_WAVE ≠ 0 <;>
    by_cases h5 : l.anim.flags &&& ANIM_FLICKER ≠ 0 <;>
    by_cases h6 : l.anim.flags &&& ANIM_PULSE ≠ 0 <;>
    by_cases h7 : l.anim.pulse.target &&& PULSE_INTENSITY ≠ 0 <;>
    by_cases h8 : l.anim.pulse.target &&& PULSE_RADIUS ≠ 0 <;>
    simp [processPointLightAnimation, h0, h1, h2, h3, h4, h5, h6, h7, h8]

set_option maxHeartbeats 2000000 in
/-- Normal form of the spot-light animation processor.  Note that the color
intensity is chained onto the CURRENT `color.w`, not `baseColor`. -/
theorem processSpotLightAnimation_eval (fm : FMath) (l : SpotLight) (t : ℚ) :
    processSpotLightAnimation fm l t =
      (if l.anim.flags = ANIM_NONE then
        { l with animOffset := ⟨0, 0, 0, 0⟩, direction := l.baseDir, worldPos := l.baseWorldPos }
      else
        let ax := if l.anim.flags &&& ANIM_LINEAR ≠ 0 ∧ t ≥ l.anim.linear.delay then
            lerpf 0 (l.anim.linear.targetPos.x - l.baseWorldPos.x)
              (linearT l.anim.linear.mode ((t - l.anim.linear.delay) / l.anim.linear.duration))
          else 0
        let ay := if l.anim.flags &&& ANIM_LINEAR ≠ 0 ∧ t ≥ l.anim.linear.delay then
            lerpf 0 (l.anim.linear.targetPos.y - l.baseWorldPos.y)
              (linearT l.anim.linear.mode ((t - l.anim.linear.delay) / l.anim.linear.duration))
          else 0
        let az := if l.anim.flags &&& ANIM_LINEAR ≠ 0 ∧ t ≥ l.anim.linear.delay then
            lerpf 0 (l.anim.linear.targetPos.z - l.baseWorldPos.z)
              (linearT l.anim.linear.mode ((t - l.anim.linear.delay) / l.anim.linear.duration))
          else 0
        let W0 : Vec4 := ⟨l.baseWorldPos.x + ax, l.baseWorldPos.y + ay,
                          l.baseWorldPos.z + az, l.baseWorldPos.w⟩
        let ang := rotationAngle fm l.anim.rotation t
        let dir := if l.anim.flags &&& ANIM_ROTATE ≠ 0 then
            rotateAroundAxis fm l.baseDir l.anim.rotation.axis ang else l.baseDir
        let W1 := if l.anim.flags &&& ANIM_ROTATE ≠ 0 then
            rotateAroundAxis fm W0 l.anim.rotation.axis ang else W0
        let cw0 := if l.anim.flags &&& ANIM_FLICKER ≠ 0 then
            l.color.w * clampf (flickerFactor fm l.anim.flicker t) 0.1 2 else l.color.w
        let cw := if l.anim.flags &&& ANIM_PULSE ≠ 0 ∧ l.anim.pulse.target &&& PULSE_INTENSITY ≠ 0
            then cw0 * pulseFactor fm l.anim.pulse t else cw0
        let W2 := if l.anim.flags &&& ANIM_PULSE ≠ 0 ∧ l.anim.pulse.target &&& PULSE_RADIUS ≠ 0
            then { W1 with w := l.baseWorldPos.w * pulseFactor fm l.anim.pulse t } else W1
        { l with
            animOffset := ⟨ax, ay, az, 0⟩,
            worldPos := W2,
            direction := dir,
            color := ⟨l.color.x, l.color.y, l.color.z, cw⟩ }) := by
  by_cases h0 : l.anim.flags = ANIM_NONE
  · simp [processSpotLightAnimation, h0]
  · by_cases h2 : l.anim.flags &&& ANIM_LINEAR ≠ 0 <;>
    by_cases h3 : t ≥ l.anim.linear.delay <;>
    by_cases h4 : l.anim.flags &&& ANIM_ROTATE ≠ 0 <;>
    by_cases h5 : l.anim.flags &&& ANIM_FLICKER ≠ 0 <;>
    by_cases h6 : l.anim.flags &&& ANIM_PULSE ≠ 0 <;>
    by_cases h7 : l.anim.pulse.target &&& PULSE_INTENSITY ≠ 0 <;>
    by_cases h8 : l.anim.pulse.target &&& PULSE_RADIUS ≠ 0 <;>
    simp [processSpotLightAnimation, h0, h2, h3, h4, h5, h6, h7, h8]

set_option maxHeartbeats 2000000 in
/-- Normal form of the rect-light animation processor.  When Rotate is
inactive, `tangent`/`bitangent` keep their previous contents (no reset). -/
theorem processRectLightAnimation_eval (fm : FMath) (l : RectLight) (t : ℚ) :
    processRectLightAnimation fm l t =
      (if l.anim.flags = ANIM_NONE then
        { l with animOffset := ⟨0, 0, 0, 0⟩, normal := l.baseNormal, worldPos := l.baseWorldPos }
      else
        let ax := if l.anim.flags &&& ANIM_LINEAR ≠ 0 ∧ t ≥ l.anim.linear.delay then
            lerpf 0 (l.anim.linear.targetPos.x - l.baseWorldPos.x)
              (linearT l.anim.linear.mode ((t - l.anim.linear.delay) / l.anim.linear.duration))
          else 0
        let ay := if l.anim.flags &&& ANIM_LINEAR ≠ 0 ∧ t ≥ l.anim.linear.delay then
            lerpf 0 (l.anim.linear.targetPos.y - l.baseWorldPos.y)
              (linearT l.anim.linear.mode ((t - l.anim.linear.delay) / l.anim.linear.duration))
          else 0
        let az := if l.anim.flags &&& ANIM_LINEAR ≠ 0 ∧ t ≥ l.anim.linear.delay then
            lerpf 0 (l.anim.linear.targetPos.z - l.baseWorldPos.z)
              (linearT l.anim.linear.mode ((t - l.anim.linear.delay) / l.anim.linear.duration))
          else 0
        let ang := rotationAngle fm l.anim.rotation t
        let cw0 := if l.anim.flags &&& ANIM_FLICKER ≠ 0 then
            l.color.w * clampf (flickerFactor fm l.anim.flicker t) 0.1 2 else l.color.w
        let cw := if l.anim.flags &&& ANIM_PULSE ≠ 0 ∧ l.anim.pulse.target &&& PULSE_INTENSITY ≠ 0
            then cw0 * pulseFactor fm l.anim.pulse t else cw0
        { l with
            animOffset := ⟨ax, ay, az, 0⟩,
            worldPos := ⟨l.baseWorldPos.x + ax, l.baseWorldPos.y + ay,
                         l.baseWorldPos.z + az, l.baseWorldPos.w⟩,
            normal := if l.anim.flags &&& ANIM_ROTATE ≠ 0 then
                rotateAroundAxis fm l.baseNormal l.anim.rotation.axis ang else l.baseNormal,
            tangent := if l.anim.flags &&& ANIM_ROTATE ≠ 0 then
                rotateAroundAxis fm l.baseTangent l.anim.rotation.axis ang else l.tangent,
            bitangent := if l.anim.flags &&& ANIM_ROTATE ≠ 0 then
                rotateAroundAxis fm l.baseBitangent l.anim.rotation.axis ang else l.bitangent,
            color := ⟨l.color.x, l.color.y, l.color.z, cw⟩ }) := by
  by_cases h0 : l.anim.flags = ANIM_NONE
  · simp [processRectLightAnimation, h0]
  · by_cases h2 : l.anim.flags &&& ANIM_LINEAR ≠ 0 <;>
    by_cases h3 : t ≥ l.anim.linear.delay <;>
    by_cases h4 : l.anim.flags &&& ANIM_ROTATE ≠ 0 <;>
    by_cases h5 : l.anim.flags &&& ANIM_FLICKER ≠ 0 <;>
    by_cases h6 : l.anim.flags &&& ANIM_PULSE ≠ 0 <;>
    by_cases h7 : l.anim.pulse.target &&& PULSE_INTENSITY ≠ 0 <;>
    simp [processRectLightAnimation, h0, h2, h3, h4, h5, h6, h7]

set_option maxHeartbeats 1000000 in
/-- The point-light processor is idempotent in all fields. -/
theorem processPointLightAnimation_idem (fm : FMath) (l : PointLight) (t : ℚ) :
    processPointLightAnimation fm (processPointLightAnimation fm l t) t =
      processPointLightAnimation fm l t := by
  conv_lhs => rw [processPointLightAnimation_eval fm l t]
  rw [processPointLightAnimation_eval fm _ t, processPointLightAnimation_eval fm l t]
  by_cases h0 : l.anim.flags = ANIM_NONE <;> simp [h0]

set_option maxHeartbeats 1000000 in
/-- The spot-light processor is idempotent in every field except `color`. -/
theorem processSpotLightAnimation_idem_butColor (fm : FMath) (s : SpotLight) (t : ℚ) :
    processSpotLightAnimation fm (processSpotLightAnimation fm s t) t =
      { processSpotLightAnimation fm s t with
          color := (processSpotLightAnimation fm (processSpotLightAnimation fm s t) t).color } := by
  conv_lhs => rw [processSpotLightAnimation_eval fm s t]
  conv_rhs => rw [processSpotLightAnimation_eval fm s t]
  rw [processSpotLightAnimation_eval fm _ t]
  by_cases h0 : s.anim.flags = ANIM_NONE <;> simp [h0]

set_option maxHeartbeats 1000000 in
/-- With Flicker off and Pulse not targeting intensity, the spot-light
processor is idempotent in all fields. -/
theorem processSpotLightAnimation_idem (fm : FMath) (s : SpotLight) (t : ℚ)
    (hF : s.anim.flags &&& ANIM_FLICKER = 0)
    (hI : s.anim.flags &&& ANIM_PULSE = 0 ∨ s.anim.pulse.target &&& PULSE_INTENSITY = 0) :
    processSpotLightAnimation fm (processSpotLightAnimation fm s t) t =
      processSpotLightAnimation fm s t := by
  conv_lhs => rw [processSpotLightAnimation_eval fm s t]
  rw [processSpotLightAnimation_eval fm _ t, processSpotLightAnimation_eval fm s t]
  rcases hI with hI | hI <;>
    by_cases h0 : s.anim.flags = ANIM_NONE <;> simp [h0, hF, hI]

set_option maxHeartbeats 1000000 in
/-- The rect-light processor is idempotent in every field except `color`. -/
theorem processRectLightAnimation_idem_butColor (fm : FMath) (r : RectLight) (t : ℚ) :
    processRectLightAnimation fm (processRectLightAnimation fm r t) t =
      { processRectLightAnimation fm r t with
          color := (processRectLightAnimation fm (processRectLightAnimation fm r t) t).color } := by
  conv_lhs => rw [processRectLightAnimation_eval fm r t]
  conv_rhs => rw [processRectLightAnimation_eval fm r t]
  rw [processRectLightAnimation_eval fm _ t]
  by_cases h0 : r.anim.flags = ANIM_NONE <;>
    by_cases hR : r.anim.flags &&& ANIM_ROTATE = 0 <;> simp [h0, hR]

set_option maxHeartbeats 1000000 in
/-- With Flicker off and Pulse not targeting intensity, the rect-light
processor is idempotent in all fields. -/
theorem processRectLightAnimation_idem (fm : FMath) (r : RectLight) (t : ℚ)
    (hF : r.anim.flags &&& ANIM_FLICKER = 0)
    (hI : r.anim.flags &&& ANIM_PULSE = 0 ∨ r.anim.pulse.target &&& PULSE_INTENSITY = 0) :
    processRectLightAnimation fm (processRectLightAnimation fm r t) t =
      processRectLightAnimation fm r t := by
  conv_lhs => rw [processRectLightAnimation_eval fm r t]
  rw [processRectLightAnimation_eval fm _ t, processRectLightAnimation_eval fm r t]
  rcases hI with hI | hI <;>
    by_cases h0 : r.anim.flags = ANIM_NONE <;>
    by_cases hR : r.anim.flags &&& ANIM_ROTATE = 0 <;> simp [h0, hF, hI, hR]

/-- C2 (amended): the animation engine has no internal accumulation for point
lights — evaluating twice at the same time equals evaluating once, in every
field.  For spot and rect lights all transient fields except the color are
likewise idempotent; the flicker and pulse-intensity factors, however, are
chained multiplicatively onto the current `color.w`, so re-evaluation
accumulates intensity scaling whenever Flicker (or Pulse targeting intensity)
is active; with those effects inactive, spot/rect evaluation is idempotent in
all fields as well. -/
theorem C2_animation_idempotence (fm : FMath) (t : ℚ)
    (l : PointLight) (s : SpotLight) (r : RectLight) :
    (processPointLightAnimation fm (processPointLightAnimation fm l t) t =
       processPointLightAnimation fm l t)
    ∧ (processSpotLightAnimation fm (processSpotLightAnimation fm s t) t =
        { processSpotLightAnimation fm s t with
            color := (processSpotLightAnimation fm (processSpotLightAnimation fm s t) t).color })
    ∧ (s.anim.flags &&& ANIM_FLICKER = 0 →
        s.anim.flags &&& ANIM_PULSE = 0 ∨ s.anim.pulse.target &&& PULSE_INTENSITY = 0 →
        processSpotLightAnimation fm (processSpotLightAnimation fm s t) t =
          processSpotLightAnimation fm s t)
    ∧ (processRectLightAnimation fm (processRectLightAnimation fm r t) t =
        { processRectLightAnimation fm r t with
            color := (processRectLightAnimation fm (processRectLightAnimation fm r t) t).color })
    ∧ (r.anim.flags &&& ANIM_FLICKER = 0 →
        r.anim.flags &&& ANIM_PULSE = 0 ∨ r.anim.pulse.target &&& PULSE_INTENSITY = 0 →
        processRectLightAnimation fm (processRectLightAnimation fm r t) t =
          processRectLightAnimation fm r t) :=
  ⟨processPointLightAnimation_idem fm l t,
   processSpotLightAnimation_idem_butColor fm s t,
   fun hF hI => processSpotLightAnimation_idem fm s t hF hI,
   processRectLightAnimation_idem_butColor fm r t,
   fun hF hI => processRectLightAnimation_idem fm r t hF hI⟩

/-- C2 counterexample: a spot light with only Flicker active and
`flicker.intensity = 1/2`, under the interpretation `sinf = cosf = 1`, maps
`color.w = 1` to `3/2` after one evaluation and to `9/4` after two — the
evaluation is NOT idempotent, because the flicker factor is chained onto the
current color rather than recomputed from an authored base. -/
theorem C2_counterexample :
    processSpotLightAnimation oneFM
        (processSpotLightAnimation oneFM
          { baseSpotLight with
              anim.flags := ANIM_FLICKER,
              anim.flicker := ⟨0, 1/2, 0⟩ } 0) 0 ≠
      processSpotLightAnimation oneFM
        { baseSpotLight with
            anim.flags := ANIM_FLICKER,
            anim.flicker := ⟨0, 1/2, 0⟩ } 0 :=
  of_decide_eq_true (by with_unfolding_all rfl)

/-- Witness for C2 at a flag-free spot light and rect light (hypotheses of
the conditional idempotence discharged at `flags = 0`). -/
theorem C2_witness :
    processSpotLightAnimation zeroFM (processSpotLightAnimation zeroFM baseSpotLight 3) 3 =
      processSpotLightAnimation zeroFM baseSpotLight 3 ∧
    processRectLightAnimation zeroFM (processRectLightAnimation zeroFM baseRectLight 3) 3 =
      processRectLightAnimation zeroFM baseRectLight 3 :=
  ⟨(C2_animation_idempotence zeroFM 3 basePointLight baseSpotLight baseRectLight).2.2.1
      (by decide) (Or.inl (by decide)),
   (C2_animation_idempotence zeroFM 3 basePointLight baseSpotLight baseRectLight).2.2.2.2
      (by decide) (Or.inl (by decide))⟩

/-- C6 counterexample: a point light with Flicker and Pulse-intensity both
active (`flicker.intensity = 1/2`, `pulse.amount = 1`, interpretation
`sinf = cosf = 1`).  The flicker factor is `3/2` and the pulse factor is `2`;
sequential multiplicative composition would give `1 · 3/2 · 2 = 3`, but the
code's pulse write overwrites the flicker scaling, producing
`baseColor.w · pulse = 2`. -/
theorem C6_counterexample :
    (processPointLightAnimation oneFM
        { basePointLight with
            anim.flags := ANIM_FLICKER ||| ANIM_PULSE,
            anim.flicker := ⟨0, 1/2, 0⟩,
            anim.pulse := ⟨0, 1, PULSE_INTENSITY⟩ } 0).color.w ≠
      basePointLight.baseColor.w *
        clampf (flickerFactor oneFM ⟨0, 1/2, 0⟩ 0) 0.1 2 *
        pulseFactor oneFM ⟨0, 1, PULSE_INTENSITY⟩ 0 :=
  of_decide_eq_true (by with_unfolding_all rfl)

set_option maxHeartbeats 1000000 in
/-- C6 (amended): for every point light with Flicker and Pulse (target
including intensity) active, the effective intensity is
`baseColor.w * pulse` — the pulse write REPLACES the flicker scaling rather
than composing with it.  The sequential multiplicative composition
`(color.w * flicker) * pulse` occurs only in the spot-light (and rect-light)
processors, which chain onto the current color. -/
theorem C6_pulse_overwrites_flicker (fm : FMath) (t : ℚ) (l : PointLight) (s : SpotLight)
    (hF : l.anim.flags &&& ANIM_FLICKER ≠ 0)
    (hP : l.anim.flags &&& ANIM_PULSE ≠ 0)
    (hI : l.anim.pulse.target &&& PULSE_INTENSITY ≠ 0)
    (hsF : s.anim.flags &&& ANIM_FLICKER ≠ 0)
    (hsP : s.anim.flags &&& ANIM_PULSE ≠ 0)
    (hsI : s.anim.pulse.target &&& PULSE_INTENSITY ≠ 0) :
    (processPointLightAnimation fm l t).color.w =
      l.baseColor.w * pulseFactor fm l.anim.pulse t
    ∧ (processSpotLightAnimation fm s t).color.w =
      (s.color.w * clampf (flickerFactor fm s.anim.flicker t) 0.1 2) *
        pulseFactor fm s.anim.pulse t := by
  constructor
  · have h0 : ¬(l.anim.flags = ANIM_NONE) := by
      intro h
      rw [h] at hF
      exact hF (by decide)
    rw [processPointLightAnimation_eval]
    simp [h0, hP, hI]
  · have h0 : ¬(s.anim.flags = ANIM_NONE) := by
      intro h
      rw [h] at hsF
      exact hsF (by decide)
    rw [processSpotLightAnimation_eval]
    simp [h0, hsF, hsP, hsI]

/-- Witness for C6 at a concrete point and spot light with
`flags = Flicker|Pulse` and `pulse.target = intensity`. -/
theorem C6_witness :
    (processPointLightAnimation zeroFM
        { basePointLight with
            anim.flags := ANIM_FLICKER ||| ANIM_PULSE,
            anim.flicker := ⟨0, 1/2, 0⟩,
            anim.pulse := ⟨0, 1, PULSE_INTENSITY⟩ } 0).color.w =
      basePointLight.baseColor.w * pulseFactor zeroFM ⟨0, 1, PULSE_INTENSITY⟩ 0 :=
  (C6_pulse_overwrites_flicker zeroFM 0
    { basePointLight with
        anim.flags := ANIM_FLICKER ||| ANIM_PULSE,
        anim.flicker := ⟨0, 1/2, 0⟩,
        anim.pulse := ⟨0, 1, PULSE_INTENSITY⟩ }
    { baseSpotLight with
        anim.flags := ANIM_FLICKER ||| ANIM_PULSE,
        anim.flicker := ⟨0, 1/2, 0⟩,
        anim.pulse := ⟨0, 1, PULSE_INTENSITY⟩ }
    (by decide) (by decide) (by decide) (by decide) (by decide) (by decide)).1
